import Mathlib

/-!
Shallow embedding of the operation-registration and dispatch layer found in
platform/src/main/python/dlpx/virtualization/platform/_plugin.py.

Modelling conventions:
  - Python exceptions become an explicit error type `PluginError`; a function
    that can raise returns `Except PluginError _`.
  - A plugin author's callback can raise an arbitrary exception; callbacks
    therefore return `Except String _`, and the dispatch layer injects such an
    error into `PluginError.callbackError` without altering its content.
  - The generated plugin-defined definition types (generated.definitions) are
    type parameters LSD, VSD, RD, SCD, SD together with a record of
    serializers; the composite `X.from_dict(json.loads s)` is modelled as a
    fallible function `String -> Except String X` (json.loads or from_dict can
    fail on a malformed payload), and `json.dumps(x.to_dict())` as a total
    function `X -> String`.
  - Protobuf messages are structures holding exactly the fields the source
    reads or writes; a proto3 string field that is left unset is the empty
    string, so an optional string (Python None or empty, both falsy) is
    modelled as a `String` where the empty string stands for absent.
  - Registration methods mutate the registry in Python; here they return the
    updated registry in `Except`, so a raised error produces no new state and
    the caller keeps the original registry unchanged.
-/

/-- Errors raised by the plugin layer or propagated through it. The source
raises plain RuntimeError or AssertionError; the constructors separate the
distinct message families the specification names. -/
inductive PluginError where
  | callbackError (e : String)
  | deserializationError (e : String)
  | duplicateRegistration (msg : String)
  | unimplementedOperation (msg : String)
  | mountCardinality (msg : String)
  | assertionError (msg : String)
deriving DecidableEq

/-- Connection descriptor, passed through verbatim by every wrapper. -/
structure Connection where
  reference : String
deriving DecidableEq

/-- Remote host descriptor (common_pb2.RemoteHost): the fields the virtual
mount-specification wrapper reads and reconstructs. -/
structure RemoteHost where
  name : String
  reference : String
  binary_path : String
  scratch_path : String
deriving DecidableEq

/-- Remote environment descriptor (common_pb2.RemoteEnvironment). -/
structure RemoteEnvironment where
  name : String
  reference : String
  host : RemoteHost
deriving DecidableEq

/-- Generic string-keyed payload carrier (common_pb2.PluginDefinedObject). -/
structure PluginDefinedObject where
  json : String
deriving DecidableEq

/-- Protobuf repository message (common_pb2.Repository). -/
structure Repository where
  parameters : PluginDefinedObject
deriving DecidableEq

/-- Protobuf source-config message (common_pb2.SourceConfig). -/
structure SourceConfig where
  parameters : PluginDefinedObject
deriving DecidableEq

/-- Protobuf snapshot message (common_pb2.Snapshot). -/
structure Snapshot where
  parameters : PluginDefinedObject
deriving DecidableEq

/-- Protobuf ownership spec message (common_pb2.OwnershipSpec). -/
structure OwnershipSpec where
  uid : Int
  gid : Int
deriving DecidableEq

/-- Protobuf staged mount message (common_pb2.SingleEntireMount): note it has
no shared-path field at all. -/
structure SingleEntireMount where
  mount_path : String
  remote_environment : RemoteEnvironment
deriving DecidableEq

/-- Protobuf virtual mount message (common_pb2.SingleSubsetMount). -/
structure SingleSubsetMount where
  remote_environment : RemoteEnvironment
  mount_path : String
  shared_path : String
deriving DecidableEq

/-- Modelled from the spec: a mount is (remote environment, mount path,
optional shared path). The Mount class lives in the platform package outside
the given source file; the empty string stands for an absent shared path,
matching Python truthiness of None and the empty string. -/
structure Mount where
  remote_environment : RemoteEnvironment
  mount_path : String
  shared_path : String
deriving DecidableEq

/-- Modelled from the spec: an ownership spec is a (uid, gid) pair. This is
the domain-side object a mount-specification callback returns. -/
structure OwnershipSpecification where
  uid : Int
  gid : Int
deriving DecidableEq

/-- Result object returned by mount-specification callbacks: a list of mounts
and an optional ownership specification. -/
structure MountSpecification where
  mounts : List Mount
  ownership_specification : Option OwnershipSpecification
deriving DecidableEq

/-- Direct linked-source view handed to direct-variant callbacks. -/
structure DirectSource (P : Type) where
  guid : String
  connection : Connection
  parameters : P
deriving DecidableEq

/-- Staged linked-source view handed to staged-variant callbacks. -/
structure StagedSource (P : Type) where
  guid : String
  connection : Connection
  parameters : P
  mount : Mount
deriving DecidableEq

/-- Virtual-source view handed to virtualization callbacks. -/
structure VirtualSource (P : Type) where
  guid : String
  connection : Connection
  parameters : P
deriving DecidableEq

/-- Argument passed to the shared linked pre/post snapshot slots: the direct
wrapper passes a DirectSource, the staged wrapper a StagedSource. -/
inductive LinkedSourceObj (P : Type) where
  | direct (d : DirectSource P)
  | staged (s : StagedSource P)
deriving DecidableEq

/-- Status object returned by status callbacks; the wrapper reads its value
field. -/
structure Status where
  value : Nat
deriving DecidableEq

/-- Enum constant platform_pb2.StagedStatusResult.ACTIVE (schema-defined
numeric value; the theorems compare against this constant, not the numeral). -/
def StagedStatusResult.ACTIVE : Nat := 0

/-- Enum constant platform_pb2.VirtualStatusResponse.ACTIVE. -/
def VirtualStatusResponse.ACTIVE : Nat := 0

/-- Serializers of the plugin-defined definition types imported from
generated.definitions inside each wrapper. A from-function models
X.from_dict(json.loads s) and can fail; a to-function models
json.dumps(x.to_dict()). -/
structure GeneratedDefinitions (LSD VSD RD SCD SD : Type) where
  fromLinkedSource : String → Except String LSD
  fromVirtualSource : String → Except String VSD
  fromRepository : String → Except String RD
  toRepository : RD → String
  fromSourceConfig : String → Except String SCD
  toSourceConfig : SCD → String
  fromSnapshot : String → Except String SD
  toSnapshot : SD → String

/-- Lift a plugin-defined deserializer failure into the dispatch error type. -/
def deser {α : Type} (f : String → Except String α) (s : String) : Except PluginError α :=
  (f s).mapError PluginError.deserializationError

section Registries

variable {LSD VSD RD SCD SD : Type}

/-- Registry of the two discovery-phase operation slots. -/
structure DiscoveryOperations (RD SCD : Type) where
  repository_impl : Option (Connection → Except String (List RD))
  source_config_impl : Option (Connection → RD → Except String (List SCD))

/-- Registry of the seven linking-phase operation slots. The pre/post
snapshot slots are shared by the direct and staged wrappers. -/
structure LinkedOperations (LSD RD SCD SD : Type) where
  pre_snapshot_impl : Option (LinkedSourceObj LSD → RD → SCD → Except String Unit)
  post_snapshot_impl : Option (LinkedSourceObj LSD → RD → SCD → Except String SD)
  start_staging_impl : Option (StagedSource LSD → RD → SCD → Except String Unit)
  stop_staging_impl : Option (StagedSource LSD → RD → SCD → Except String Unit)
  status_impl : Option (StagedSource LSD → RD → SCD → Except String Status)
  worker_impl : Option (StagedSource LSD → RD → SCD → Except String Unit)
  mount_specification_impl : Option (StagedSource LSD → RD → Except String MountSpecification)

/-- Registry of the ten virtualization-phase operation slots. -/
structure VirtualOperations (VSD RD SCD SD : Type) where
  configure_impl : Option (VirtualSource VSD → RD → SD → Except String SCD)
  unconfigure_impl : Option (RD → SCD → VirtualSource VSD → Except String Unit)
  reconfigure_impl : Option (SD → SCD → VirtualSource VSD → Except String SCD)
  start_impl : Option (RD → SCD → VirtualSource VSD → Except String Unit)
  stop_impl : Option (RD → SCD → VirtualSource VSD → Except String Unit)
  pre_snapshot_impl : Option (RD → SCD → VirtualSource VSD → Except String Unit)
  post_snapshot_impl : Option (RD → SCD → VirtualSource VSD → Except String SD)
  status_impl : Option (RD → SCD → VirtualSource VSD → Except String Status)
  initialize_impl : Option (RD → SCD → VirtualSource VSD → Except String Unit)
  mount_specification_impl : Option (RD → VirtualSource VSD → Except String MountSpecification)

/-- DiscoveryOperations.__init__: both slots start unset. -/
def DiscoveryOperations.init : DiscoveryOperations RD SCD :=
  { repository_impl := none, source_config_impl := none }

/-- LinkedOperations.__init__: all seven slots start unset. -/
def LinkedOperations.init : LinkedOperations LSD RD SCD SD :=
  { pre_snapshot_impl := none, post_snapshot_impl := none, start_staging_impl := none
    stop_staging_impl := none, status_impl := none, worker_impl := none
    mount_specification_impl := none }

/-- VirtualOperations.__init__: all ten slots start unset. -/
def VirtualOperations.init : VirtualOperations VSD RD SCD SD :=
  { configure_impl := none, unconfigure_impl := none, reconfigure_impl := none
    start_impl := none, stop_impl := none, pre_snapshot_impl := none
    post_snapshot_impl := none, status_impl := none, initialize_impl := none
    mount_specification_impl := none }

/-- Registration decorator for discovery.repository(). -/
def DiscoveryOperations.repository (self : DiscoveryOperations RD SCD)
    (impl : Connection → Except String (List RD)) :
    Except PluginError (DiscoveryOperations RD SCD) :=
  match self.repository_impl with
  | some _ => Except.error (PluginError.duplicateRegistration
      ("An implementation for discovery.repository() operation has already been defined."))
  | none => Except.ok { self with repository_impl := some impl }

/-- Registration decorator for discovery.source_config(). -/
def DiscoveryOperations.source_config (self : DiscoveryOperations RD SCD)
    (impl : Connection → RD → Except String (List SCD)) :
    Except PluginError (DiscoveryOperations RD SCD) :=
  match self.source_config_impl with
  | some _ => Except.error (PluginError.duplicateRegistration
      ("An implementation for discovery.source_config() operation has already been defined."))
  | none => Except.ok { self with source_config_impl := some impl }

/-- Registration decorator for linked.pre_snapshot(). -/
def LinkedOperations.pre_snapshot (self : LinkedOperations LSD RD SCD SD)
    (impl : LinkedSourceObj LSD → RD → SCD → Except String Unit) :
    Except PluginError (LinkedOperations LSD RD SCD SD) :=
  match self.pre_snapshot_impl with
  | some _ => Except.error (PluginError.duplicateRegistration
      ("An implementation for linked.pre_snapshot() operation has already been defined."))
  | none => Except.ok { self with pre_snapshot_impl := some impl }

/-- Registration decorator for linked.post_snapshot(). -/
def LinkedOperations.post_snapshot (self : LinkedOperations LSD RD SCD SD)
    (impl : LinkedSourceObj LSD → RD → SCD → Except String SD) :
    Except PluginError (LinkedOperations LSD RD SCD SD) :=
  match self.post_snapshot_impl with
  | some _ => Except.error (PluginError.duplicateRegistration
      ("An implementation for linked.post_snapshot() operation has already been defined."))
  | none => Except.ok { self with post_snapshot_impl := some impl }

/-- Registration decorator for linked.start_staging(). -/
def LinkedOperations.start_staging (self : LinkedOperations LSD RD SCD SD)
    (impl : StagedSource LSD → RD → SCD → Except String Unit) :
    Except PluginError (LinkedOperations LSD RD SCD SD) :=
  match self.start_staging_impl with
  | some _ => Except.error (PluginError.duplicateRegistration
      ("An implementation for linked.start_staging() operation has already been defined."))
  | none => Except.ok { self with start_staging_impl := some impl }

/-- Registration decorator for linked.stop_staging(). -/
def LinkedOperations.stop_staging (self : LinkedOperations LSD RD SCD SD)
    (impl : StagedSource LSD → RD → SCD → Except String Unit) :
    Except PluginError (LinkedOperations LSD RD SCD SD) :=
  match self.stop_staging_impl with
  | some _ => Except.error (PluginError.duplicateRegistration
      ("An implementation for linked.stop_staging() operation has already been defined."))
  | none => Except.ok { self with stop_staging_impl := some impl }

/-- Registration decorator for linked.status(). -/
def LinkedOperations.status (self : LinkedOperations LSD RD SCD SD)
    (impl : StagedSource LSD → RD → SCD → Except String Status) :
    Except PluginError (LinkedOperations LSD RD SCD SD) :=
  match self.status_impl with
  | some _ => Except.error (PluginError.duplicateRegistration
      ("An implementation for linked.status() operation has already been defined."))
  | none => Except.ok { self with status_impl := some impl }

/-- Registration decorator for linked.worker(). -/
def LinkedOperations.worker (self : LinkedOperations LSD RD SCD SD)
    (impl : StagedSource LSD → RD → SCD → Except String Unit) :
    Except PluginError (LinkedOperations LSD RD SCD SD) :=
  match self.worker_impl with
  | some _ => Except.error (PluginError.duplicateRegistration
      ("An implementation for linked.worker() operation has already been defined."))
  | none => Except.ok { self with worker_impl := some impl }

/-- Registration decorator for linked.mount_specification(). -/
def LinkedOperations.mount_specification (self : LinkedOperations LSD RD SCD SD)
    (impl : StagedSource LSD → RD → Except String MountSpecification) :
    Except PluginError (LinkedOperations LSD RD SCD SD) :=
  match self.mount_specification_impl with
  | some _ => Except.error (PluginError.duplicateRegistration
      ("An implementation for linked.mount_specification() operation has already been defined."))
  | none => Except.ok { self with mount_specification_impl := some impl }

/-- Registration decorator for virtual.configure(). -/
def VirtualOperations.configure (self : VirtualOperations VSD RD SCD SD)
    (impl : VirtualSource VSD → RD → SD → Except String SCD) :
    Except PluginError (VirtualOperations VSD RD SCD SD) :=
  match self.configure_impl with
  | some _ => Except.error (PluginError.duplicateRegistration
      ("An implementation for virtual.configure() operation has already been defined."))
  | none => Except.ok { self with configure_impl := some impl }

/-- Registration decorator for virtual.unconfigure(). -/
def VirtualOperations.unconfigure (self : VirtualOperations VSD RD SCD SD)
    (impl : RD → SCD → VirtualSource VSD → Except String Unit) :
    Except PluginError (VirtualOperations VSD RD SCD SD) :=
  match self.unconfigure_impl with
  | some _ => Except.error (PluginError.duplicateRegistration
      ("An implementation for virtual.unconfigure() operation has already been defined."))
  | none => Except.ok { self with unconfigure_impl := some impl }

/-- Registration decorator for virtual.reconfigure(). -/
def VirtualOperations.reconfigure (self : VirtualOperations VSD RD SCD SD)
    (impl : SD → SCD → VirtualSource VSD → Except String SCD) :
    Except PluginError (VirtualOperations VSD RD SCD SD) :=
  match self.reconfigure_impl with
  | some _ => Except.error (PluginError.duplicateRegistration
      ("An implementation for virtual.reconfigure() operation has already been defined."))
  | none => Except.ok { self with reconfigure_impl := some impl }

/-- Registration decorator for virtual.start(). -/
def VirtualOperations.start (self : VirtualOperations VSD RD SCD SD)
    (impl : RD → SCD → VirtualSource VSD → Except String Unit) :
    Except PluginError (VirtualOperations VSD RD SCD SD) :=
  match self.start_impl with
  | some _ => Except.error (PluginError.duplicateRegistration
      ("An implementation for virtual.start() operation has already been defined."))
  | none => Except.ok { self with start_impl := some impl }

/-- Registration decorator for virtual.stop(). -/
def VirtualOperations.stop (self : VirtualOperations VSD RD SCD SD)
    (impl : RD → SCD → VirtualSource VSD → Except String Unit) :
    Except PluginError (VirtualOperations VSD RD SCD SD) :=
  match self.stop_impl with
  | some _ => Except.error (PluginError.duplicateRegistration
      ("An implementation for virtual.stop() operation has already been defined."))
  | none => Except.ok { self with stop_impl := some impl }

/-- Registration decorator for virtual.pre_snapshot(). -/
def VirtualOperations.pre_snapshot (self : VirtualOperations VSD RD SCD SD)
    (impl : RD → SCD → VirtualSource VSD → Except String Unit) :
    Except PluginError (VirtualOperations VSD RD SCD SD) :=
  match self.pre_snapshot_impl with
  | some _ => Except.error (PluginError.duplicateRegistration
      ("An implementation for virtual.pre_snapshot() operation has already been defined."))
  | none => Except.ok { self with pre_snapshot_impl := some impl }

/-- Registration decorator for virtual.post_snapshot(). -/
def VirtualOperations.post_snapshot (self : VirtualOperations VSD RD SCD SD)
    (impl : RD → SCD → VirtualSource VSD → Except String SD) :
    Except PluginError (VirtualOperations VSD RD SCD SD) :=
  match self.post_snapshot_impl with
  | some _ => Except.error (PluginError.duplicateRegistration
      ("An implementation for virtual.post_snapshot() operation has already been defined."))
  | none => Except.ok { self with post_snapshot_impl := some impl }

/-- Registration decorator for virtual.status(). -/
def VirtualOperations.status (self : VirtualOperations VSD RD SCD SD)
    (impl : RD → SCD → VirtualSource VSD → Except String Status) :
    Except PluginError (VirtualOperations VSD RD SCD SD) :=
  match self.status_impl with
  | some _ => Except.error (PluginError.duplicateRegistration
      ("An implementation for virtual.status() operation has already been defined."))
  | none => Except.ok { self with status_impl := some impl }

/-- Registration decorator for virtual.initialize(). The Python method is
named initialize; that name is adjusted here. -/
def VirtualOperations.initialize_op (self : VirtualOperations VSD RD SCD SD)
    (impl : RD → SCD → VirtualSource VSD → Except String Unit) :
    Except PluginError (VirtualOperations VSD RD SCD SD) :=
  match self.initialize_impl with
  | some _ => Except.error (PluginError.duplicateRegistration
      ("An implementation for virtual.initialize() operation has already been defined."))
  | none => Except.ok { self with initialize_impl := some impl }

/-- Registration decorator for virtual.mount_specification(). -/
def VirtualOperations.mount_specification (self : VirtualOperations VSD RD SCD SD)
    (impl : RD → VirtualSource VSD → Except String MountSpecification) :
    Except PluginError (VirtualOperations VSD RD SCD SD) :=
  match self.mount_specification_impl with
  | some _ => Except.error (PluginError.duplicateRegistration
      ("An implementation for virtual.mount_specification() operation has already been defined."))
  | none => Except.ok { self with mount_specification_impl := some impl }

/-- Aggregate facade: the Plugin object exposing the three registries. -/
structure Plugin (LSD VSD RD SCD SD : Type) where
  discovery : DiscoveryOperations RD SCD
  linked : LinkedOperations LSD RD SCD SD
  virtual : VirtualOperations VSD RD SCD SD

/-- Plugin.__init__: three freshly constructed registries with every slot
unset. -/
def Plugin.init : Plugin LSD VSD RD SCD SD :=
  { discovery := DiscoveryOperations.init
    linked := LinkedOperations.init
    virtual := VirtualOperations.init }

end Registries

/-- Request message for repository discovery (RepositoryDiscoveryRequest). -/
structure RepositoryDiscoveryRequest where
  source_connection : Connection
deriving DecidableEq

/-- Request message for source-config discovery (SourceConfigDiscoveryRequest). -/
structure SourceConfigDiscoveryRequest where
  source_connection : Connection
  repository : Repository
deriving DecidableEq

/-- Protobuf linked-source sub-message: a guid and the plugin-defined
parameters payload. -/
structure LinkedSourceMsg where
  guid : String
  parameters : PluginDefinedObject
deriving DecidableEq

/-- Protobuf direct-source sub-message (request.direct_source). -/
structure DirectSourceMsg where
  linked_source : LinkedSourceMsg
  connection : Connection
deriving DecidableEq

/-- Protobuf staged-mount sub-message (request.staged_source.staged_mount). -/
structure StagedMountMsg where
  remote_environment : RemoteEnvironment
  mount_path : String
  shared_path : String
deriving DecidableEq

/-- Protobuf staged-source sub-message (request.staged_source). -/
structure StagedSourceMsg where
  linked_source : LinkedSourceMsg
  connection : Connection
  staged_mount : StagedMountMsg
deriving DecidableEq

/-- Shared shape of the direct-variant requests DirectPreSnapshotRequest and
DirectPostSnapshotRequest. -/
structure DirectOpRequest where
  direct_source : DirectSourceMsg
  repository : Repository
  source_config : SourceConfig
deriving DecidableEq

/-- Shared shape of the staged-variant requests StagedPreSnapshotRequest,
StagedPostSnapshotRequest, StartStagingRequest, StopStagingRequest,
StagedStatusRequest and StagedWorkerRequest. -/
structure StagedOpRequest where
  staged_source : StagedSourceMsg
  repository : Repository
  source_config : SourceConfig
deriving DecidableEq

/-- Request message for the staged mount specification (StagedMountSpecRequest). -/
structure StagedMountSpecRequest where
  staged_source : StagedSourceMsg
  repository : Repository
deriving DecidableEq

/-- Protobuf virtual-source sub-message (request.virtual_source). -/
structure VirtualSourceMsg where
  guid : String
  connection : Connection
  parameters : PluginDefinedObject
deriving DecidableEq

/-- Request message for virtual.configure (ConfigureRequest). -/
structure ConfigureRequest where
  virtual_source : VirtualSourceMsg
  repository : Repository
  snapshot : Snapshot
deriving DecidableEq

/-- Request message for virtual.reconfigure (ReconfigureRequest). -/
structure ReconfigureRequest where
  virtual_source : VirtualSourceMsg
  snapshot : Snapshot
  source_config : SourceConfig
deriving DecidableEq

/-- Shared shape of the virtual requests UnconfigureRequest, StartRequest,
StopRequest, VirtualPreSnapshotRequest, VirtualPostSnapshotRequest,
VirtualStatusRequest and InitializeRequest. -/
structure VirtualOpRequest where
  virtual_source : VirtualSourceMsg
  repository : Repository
  source_config : SourceConfig
deriving DecidableEq

/-- Request message for the virtual mount specification (VirtualMountSpecRequest). -/
structure VirtualMountSpecRequest where
  virtual_source : VirtualSourceMsg
  repository : Repository
deriving DecidableEq

/-- Response for repository discovery: the list inside return_value. -/
structure RepositoryDiscoveryResponse where
  repositories : List Repository
deriving DecidableEq

/-- Response for source-config discovery: the list inside return_value. -/
structure SourceConfigDiscoveryResponse where
  source_configs : List SourceConfig
deriving DecidableEq

/-- Responses whose result message carries no fields (the wrapper copies a
freshly constructed empty result into return_value): the modelled content is
a unit value. Stands for DirectPreSnapshotResponse, StagedPreSnapshotResponse,
StartStagingResponse, StopStagingResponse, StagedWorkerResponse,
UnconfigureResponse, StartResponse, StopResponse, VirtualPreSnapshotResponse
and InitializeResponse. -/
abbrev EmptyResultResponse := Unit

/-- Response carrying a snapshot message in return_value.snapshot: stands for
DirectPostSnapshotResponse, StagedPostSnapshotResponse and
VirtualPostSnapshotResponse. -/
structure SnapshotResponse where
  snapshot : Snapshot
deriving DecidableEq

/-- Response carrying return_value.status: stands for StagedStatusResponse and
VirtualStatusResponse. -/
structure StatusResponse where
  status : Nat
deriving DecidableEq

/-- Response for the staged mount specification: return_value.staged_mount and
the optional return_value.ownership_spec (an unset message field is absent). -/
structure StagedMountSpecResponse where
  staged_mount : SingleEntireMount
  ownership_spec : Option OwnershipSpec
deriving DecidableEq

/-- Response carrying return_value.source_config.parameters.json: stands for
ConfigureResponse and ReconfigureResponse. -/
structure SourceConfigResponse where
  source_config : SourceConfig
deriving DecidableEq

/-- Response for the virtual mount specification: the mounts list and the
optional ownership spec inside return_value. -/
structure VirtualMountSpecResponse where
  mounts : List SingleSubsetMount
  ownership_spec : Option OwnershipSpec
deriving DecidableEq

/-- Helper shared by both mount-specification wrappers: copy uid and gid of
the domain ownership spec into the protobuf message. -/
def to_protobuf_ownership_spec (ownership_spec : OwnershipSpecification) : OwnershipSpec :=
  { uid := ownership_spec.uid, gid := ownership_spec.gid }

/-- Nested helper of the staged mount-specification wrapper: asserts that the
mount has no shared path (unsupported for linked sources) and builds the
SingleEntireMount message. -/
def LinkedOperations.to_protobuf_single_mount (single_mount : Mount) :
    Except PluginError SingleEntireMount :=
  if single_mount.shared_path = "" then
    Except.ok { mount_path := single_mount.mount_path
                remote_environment := single_mount.remote_environment }
  else
    Except.error (PluginError.assertionError
      ("Shared path is not supported for linked sources"))

/-- Nested helper of the virtual mount-specification wrapper: reconstructs the
remote host and environment field by field, copies the mount path, and sets
the shared path only when it is non-empty (otherwise the proto3 field keeps
its empty default). -/
def VirtualOperations.to_protobuf_single_mount (single_mount : Mount) :
    SingleSubsetMount :=
  let host_protobuf : RemoteHost :=
    { name := single_mount.remote_environment.host.name
      reference := single_mount.remote_environment.host.reference
      binary_path := single_mount.remote_environment.host.binary_path
      scratch_path := single_mount.remote_environment.host.scratch_path }
  let environment_protobuf : RemoteEnvironment :=
    { name := single_mount.remote_environment.name
      reference := single_mount.remote_environment.reference
      host := host_protobuf }
  { remote_environment := environment_protobuf
    mount_path := single_mount.mount_path
    shared_path := if single_mount.shared_path = "" then "" else single_mount.shared_path }

section Wrappers

variable {LSD VSD RD SCD SD : Type}
variable (gen : GeneratedDefinitions LSD VSD RD SCD SD)

/-- Wrapper for repository discovery: checks the slot, invokes the callback on
the verbatim connection, and serializes each returned repository definition. -/
def DiscoveryOperations.internal_repository (self : DiscoveryOperations RD SCD)
    (request : RepositoryDiscoveryRequest) :
    Except PluginError RepositoryDiscoveryResponse :=
  match self.repository_impl with
  | none => Except.error (PluginError.unimplementedOperation
      ("An implementation for the discovery.repository() operation has not been defined."))
  | some impl => do
      let repositories ← (impl request.source_connection).mapError PluginError.callbackError
      Except.ok { repositories := repositories.map (fun repo =>
        { parameters := { json := gen.toRepository repo } }) }

/-- Wrapper for source-config discovery: deserializes the repository payload
before checking the slot, then invokes the callback and serializes each
returned source-config definition. -/
def DiscoveryOperations.internal_source_config (self : DiscoveryOperations RD SCD)
    (request : SourceConfigDiscoveryRequest) :
    Except PluginError SourceConfigDiscoveryResponse := do
  let repository_definition ← deser gen.fromRepository request.repository.parameters.json
  match self.source_config_impl with
  | none => Except.error (PluginError.unimplementedOperation
      ("An implementation for the discovery.source_config() operation has not been defined."))
  | some impl => do
      let source_configs ←
        (impl request.source_connection repository_definition).mapError PluginError.callbackError
      Except.ok { source_configs := source_configs.map (fun source_config =>
        { parameters := { json := gen.toSourceConfig source_config } }) }

/-- Wrapper for the direct pre-snapshot operation: deserializes the linked
source, repository and source config, then requires the shared pre-snapshot
slot and invokes it with a DirectSource. -/
def LinkedOperations.internal_direct_pre_snapshot (self : LinkedOperations LSD RD SCD SD)
    (request : DirectOpRequest) : Except PluginError EmptyResultResponse := do
  let direct_source_definition ←
    deser gen.fromLinkedSource request.direct_source.linked_source.parameters.json
  let direct_source : DirectSource LSD :=
    { guid := request.direct_source.linked_source.guid
      connection := request.direct_source.connection
      parameters := direct_source_definition }
  let repository ← deser gen.fromRepository request.repository.parameters.json
  let source_config ← deser gen.fromSourceConfig request.source_config.parameters.json
  match self.pre_snapshot_impl with
  | none => Except.error (PluginError.unimplementedOperation
      ("An implementation for the linked.pre_snapshot() operation has not been defined."))
  | some impl => do
      let _ ← (impl (LinkedSourceObj.direct direct_source) repository source_config).mapError
        PluginError.callbackError
      Except.ok ()

/-- Wrapper for the direct post-snapshot operation: like the pre-snapshot
wrapper but required on the post-snapshot slot, and the returned snapshot
definition is serialized into the response. -/
def LinkedOperations.internal_direct_post_snapshot (self : LinkedOperations LSD RD SCD SD)
    (request : DirectOpRequest) : Except PluginError SnapshotResponse := do
  let direct_source_definition ←
    deser gen.fromLinkedSource request.direct_source.linked_source.parameters.json
  let direct_source : DirectSource LSD :=
    { guid := request.direct_source.linked_source.guid
      connection := request.direct_source.connection
      parameters := direct_source_definition }
  let repository ← deser gen.fromRepository request.repository.parameters.json
  let source_config ← deser gen.fromSourceConfig request.source_config.parameters.json
  match self.post_snapshot_impl with
  | none => Except.error (PluginError.unimplementedOperation
      ("An implementation for the linked.post_snapshot() operation has not been defined."))
  | some impl => do
      let snapshot ← (impl (LinkedSourceObj.direct direct_source) repository source_config).mapError
        PluginError.callbackError
      Except.ok { snapshot := { parameters := { json := gen.toSnapshot snapshot } } }

/-- Builds the staged-source view a staged wrapper hands to the callback: the
staged mount is copied from the request and paired with the deserialized
linked-source definition. -/
def StagedSourceMsg.toStagedSource (msg : StagedSourceMsg) (defn : LSD) : StagedSource LSD :=
  { guid := msg.linked_source.guid
    connection := msg.connection
    parameters := defn
    mount := { remote_environment := msg.staged_mount.remote_environment
               mount_path := msg.staged_mount.mount_path
               shared_path := msg.staged_mount.shared_path } }

/-- Wrapper for the staged pre-snapshot operation: optional, so with no bound
callback the request is never touched and an empty success result is
returned. -/
def LinkedOperations.internal_staged_pre_snapshot (self : LinkedOperations LSD RD SCD SD)
    (request : StagedOpRequest) : Except PluginError EmptyResultResponse :=
  match self.pre_snapshot_impl with
  | none => Except.ok ()
  | some impl => do
      let staged_source_definition ←
        deser gen.fromLinkedSource request.staged_source.linked_source.parameters.json
      let staged_source := request.staged_source.toStagedSource staged_source_definition
      let repository ← deser gen.fromRepository request.repository.parameters.json
      let source_config ← deser gen.fromSourceConfig request.source_config.parameters.json
      let _ ← (impl (LinkedSourceObj.staged staged_source) repository source_config).mapError
        PluginError.callbackError
      Except.ok ()

/-- Wrapper for the staged post-snapshot operation: required; deserializes,
invokes the shared post-snapshot slot with a StagedSource, and serializes the
returned snapshot definition. -/
def LinkedOperations.internal_staged_post_snapshot (self : LinkedOperations LSD RD SCD SD)
    (request : StagedOpRequest) : Except PluginError SnapshotResponse := do
  let staged_source_definition ←
    deser gen.fromLinkedSource request.staged_source.linked_source.parameters.json
  let staged_source := request.staged_source.toStagedSource staged_source_definition
  let repository ← deser gen.fromRepository request.repository.parameters.json
  let source_config ← deser gen.fromSourceConfig request.source_config.parameters.json
  match self.post_snapshot_impl with
  | none => Except.error (PluginError.unimplementedOperation
      ("An implementation for the linked.post_snapshot() operation has not been defined."))
  | some impl => do
      let snapshot ← (impl (LinkedSourceObj.staged staged_source) repository source_config).mapError
        PluginError.callbackError
      Except.ok { snapshot := { parameters := { json := gen.toSnapshot snapshot } } }

/-- Wrapper for start-staging: optional; with no bound callback the request is
never touched and an empty success result is returned. -/
def LinkedOperations.internal_start_staging (self : LinkedOperations LSD RD SCD SD)
    (request : StagedOpRequest) : Except PluginError EmptyResultResponse :=
  match self.start_staging_impl with
  | none => Except.ok ()
  | some impl => do
      let staged_source_definition ←
        deser gen.fromLinkedSource request.staged_source.linked_source.parameters.json
      let staged_source := request.staged_source.toStagedSource staged_source_definition
      let repository ← deser gen.fromRepository request.repository.parameters.json
      let source_config ← deser gen.fromSourceConfig request.source_config.parameters.json
      let _ ← (impl staged_source repository source_config).mapError PluginError.callbackError
      Except.ok ()

/-- Wrapper for stop-staging: optional, same default behavior as start-staging. -/
def LinkedOperations.internal_stop_staging (self : LinkedOperations LSD RD SCD SD)
    (request : StagedOpRequest) : Except PluginError EmptyResultResponse :=
  match self.stop_staging_impl with
  | none => Except.ok ()
  | some impl => do
      let staged_source_definition ←
        deser gen.fromLinkedSource request.staged_source.linked_source.parameters.json
      let staged_source := request.staged_source.toStagedSource staged_source_definition
      let repository ← deser gen.fromRepository request.repository.parameters.json
      let source_config ← deser gen.fromSourceConfig request.source_config.parameters.json
      let _ ← (impl staged_source repository source_config).mapError PluginError.callbackError
      Except.ok ()

/-- Wrapper for the staged status operation: with no bound callback the
request is never touched and the response status is ACTIVE; otherwise the
callback result's value field is copied into the response. -/
def LinkedOperations.internal_status (self : LinkedOperations LSD RD SCD SD)
    (request : StagedOpRequest) : Except PluginError StatusResponse :=
  match self.status_impl with
  | none => Except.ok { status := StagedStatusResult.ACTIVE }
  | some impl => do
      let staged_source_definition ←
        deser gen.fromLinkedSource request.staged_source.linked_source.parameters.json
      let staged_source := request.staged_source.toStagedSource staged_source_definition
      let repository ← deser gen.fromRepository request.repository.parameters.json
      let source_config ← deser gen.fromSourceConfig request.source_config.parameters.json
      let status ← (impl staged_source repository source_config).mapError PluginError.callbackError
      Except.ok { status := status.value }

/-- Wrapper for the staged worker operation: optional, empty success result
when no callback is bound. -/
def LinkedOperations.internal_worker (self : LinkedOperations LSD RD SCD SD)
    (request : StagedOpRequest) : Except PluginError EmptyResultResponse :=
  match self.worker_impl with
  | none => Except.ok ()
  | some impl => do
      let staged_source_definition ←
        deser gen.fromLinkedSource request.staged_source.linked_source.parameters.json
      let staged_source := request.staged_source.toStagedSource staged_source_definition
      let repository ← deser gen.fromRepository request.repository.parameters.json
      let source_config ← deser gen.fromSourceConfig request.source_config.parameters.json
      let _ ← (impl staged_source repository source_config).mapError PluginError.callbackError
      Except.ok ()

/-- Wrapper for the staged mount specification: deserializes the staged source
and repository, requires the slot, invokes the callback, raises a mount
cardinality error unless exactly one mount was returned, converts that mount
(asserting it has no shared path), and marshals the ownership spec exactly
when one is present. -/
def LinkedOperations.internal_mount_specification (self : LinkedOperations LSD RD SCD SD)
    (request : StagedMountSpecRequest) : Except PluginError StagedMountSpecResponse := do
  let staged_source_definition ←
    deser gen.fromLinkedSource request.staged_source.linked_source.parameters.json
  let staged_source := request.staged_source.toStagedSource staged_source_definition
  let repository ← deser gen.fromRepository request.repository.parameters.json
  match self.mount_specification_impl with
  | none => Except.error (PluginError.unimplementedOperation
      ("An implementation for the linked.mount_specification() operation has not been defined."))
  | some impl => do
      let mount_spec ← (impl staged_source repository).mapError PluginError.callbackError
      match mount_spec.mounts with
      | [single_mount] => do
          let staged_mount ← LinkedOperations.to_protobuf_single_mount single_mount
          Except.ok { staged_mount := staged_mount
                      ownership_spec :=
                        mount_spec.ownership_specification.map to_protobuf_ownership_spec }
      | _ => Except.error (PluginError.mountCardinality
          ("Exactly one mount must be provided for staging sources. Found " ++
            toString mount_spec.mounts.length))

/-- Builds the virtual-source view a virtual wrapper hands to the callback. -/
def VirtualSourceMsg.toVirtualSource (msg : VirtualSourceMsg) (defn : VSD) : VirtualSource VSD :=
  { guid := msg.guid, connection := msg.connection, parameters := defn }

/-- Wrapper for virtual.configure: deserializes the virtual source, repository
and snapshot, requires the slot, invokes the callback with those three
objects, and serializes the returned source-config definition into
return_value.source_config.parameters.json. -/
def VirtualOperations.internal_configure (self : VirtualOperations VSD RD SCD SD)
    (request : ConfigureRequest) : Except PluginError SourceConfigResponse := do
  let virtual_source_definition ←
    deser gen.fromVirtualSource request.virtual_source.parameters.json
  let virtual_source := request.virtual_source.toVirtualSource virtual_source_definition
  let repository ← deser gen.fromRepository request.repository.parameters.json
  let snapshot ← deser gen.fromSnapshot request.snapshot.parameters.json
  match self.configure_impl with
  | none => Except.error (PluginError.unimplementedOperation
      ("An implementation the for virtual.configure() operation has not been defined."))
  | some impl => do
      let config ← (impl virtual_source repository snapshot).mapError PluginError.callbackError
      Except.ok { source_config := { parameters := { json := gen.toSourceConfig config } } }

/-- Wrapper for virtual.unconfigure: optional; with no bound callback the
request is never touched and an empty success result is returned. -/
def VirtualOperations.internal_unconfigure (self : VirtualOperations VSD RD SCD SD)
    (request : VirtualOpRequest) : Except PluginError EmptyResultResponse :=
  match self.unconfigure_impl with
  | none => Except.ok ()
  | some impl => do
      let virtual_source_definition ←
        deser gen.fromVirtualSource request.virtual_source.parameters.json
      let virtual_source := request.virtual_source.toVirtualSource virtual_source_definition
      let repository ← deser gen.fromRepository request.repository.parameters.json
      let source_config ← deser gen.fromSourceConfig request.source_config.parameters.json
      let _ ← (impl repository source_config virtual_source).mapError PluginError.callbackError
      Except.ok ()

/-- Wrapper for virtual.reconfigure: required; deserializes the virtual
source, snapshot and source config, invokes the callback, and serializes the
returned source-config definition. -/
def VirtualOperations.internal_reconfigure (self : VirtualOperations VSD RD SCD SD)
    (request : ReconfigureRequest) : Except PluginError SourceConfigResponse := do
  let virtual_source_definition ←
    deser gen.fromVirtualSource request.virtual_source.parameters.json
  let virtual_source := request.virtual_source.toVirtualSource virtual_source_definition
  let snapshot ← deser gen.fromSnapshot request.snapshot.parameters.json
  let source_config ← deser gen.fromSourceConfig request.source_config.parameters.json
  match self.reconfigure_impl with
  | none => Except.error (PluginError.unimplementedOperation
      ("An implementation for the virtual.reconfigure() operation has not been defined."))
  | some impl => do
      let config ← (impl snapshot source_config virtual_source).mapError PluginError.callbackError
      Except.ok { source_config := { parameters := { json := gen.toSourceConfig config } } }

/-- Wrapper for virtual.start: optional, empty success result when no
callback is bound. -/
def VirtualOperations.internal_start (self : VirtualOperations VSD RD SCD SD)
    (request : VirtualOpRequest) : Except PluginError EmptyResultResponse :=
  match self.start_impl with
  | none => Except.ok ()
  | some impl => do
      let virtual_source_definition ←
        deser gen.fromVirtualSource request.virtual_source.parameters.json
      let virtual_source := request.virtual_source.toVirtualSource virtual_source_definition
      let repository ← deser gen.fromRepository request.repository.parameters.json
      let source_config ← deser gen.fromSourceConfig request.source_config.parameters.json
      let _ ← (impl repository source_config virtual_source).mapError PluginError.callbackError
      Except.ok ()

/-- Wrapper for virtual.stop: optional, empty success result when no callback
is bound. -/
def VirtualOperations.internal_stop (self : VirtualOperations VSD RD SCD SD)
    (request : VirtualOpRequest) : Except PluginError EmptyResultResponse :=
  match self.stop_impl with
  | none => Except.ok ()
  | some impl => do
      let virtual_source_definition ←
        deser gen.fromVirtualSource request.virtual_source.parameters.json
      let virtual_source := request.virtual_source.toVirtualSource virtual_source_definition
      let repository ← deser gen.fromRepository request.repository.parameters.json
      let source_config ← deser gen.fromSourceConfig request.source_config.parameters.json
      let _ ← (impl repository source_config virtual_source).mapError PluginError.callbackError
      Except.ok ()

/-- Wrapper for virtual.pre_snapshot: optional, empty success result when no
callback is bound. -/
def VirtualOperations.internal_pre_snapshot (self : VirtualOperations VSD RD SCD SD)
    (request : VirtualOpRequest) : Except PluginError EmptyResultResponse :=
  match self.pre_snapshot_impl with
  | none => Except.ok ()
  | some impl => do
      let virtual_source_definition ←
        deser gen.fromVirtualSource request.virtual_source.parameters.json
      let virtual_source := request.virtual_source.toVirtualSource virtual_source_definition
      let repository ← deser gen.fromRepository request.repository.parameters.json
      let source_config ← deser gen.fromSourceConfig request.source_config.parameters.json
      let _ ← (impl repository source_config virtual_source).mapError PluginError.callbackError
      Except.ok ()

/-- Wrapper for virtual.post_snapshot: required; deserializes, invokes the
callback, and serializes the returned snapshot definition. -/
def VirtualOperations.internal_post_snapshot (self : VirtualOperations VSD RD SCD SD)
    (request : VirtualOpRequest) : Except PluginError SnapshotResponse := do
  let virtual_source_definition ←
    deser gen.fromVirtualSource request.virtual_source.parameters.json
  let virtual_source := request.virtual_source.toVirtualSource virtual_source_definition
  let repository ← deser gen.fromRepository request.repository.parameters.json
  let source_config ← deser gen.fromSourceConfig request.source_config.parameters.json
  match self.post_snapshot_impl with
  | none => Except.error (PluginError.unimplementedOperation
      ("An implementation for the virtual.post_snapshot() operation has not been defined."))
  | some impl => do
      let snapshot ← (impl repository source_config virtual_source).mapError
        PluginError.callbackError
      Except.ok { snapshot := { parameters := { json := gen.toSnapshot snapshot } } }

/-- Wrapper for the virtual status operation: with no bound callback the
request is never touched and the response status is ACTIVE; otherwise the
callback result's value field is copied into the response. -/
def VirtualOperations.internal_status (self : VirtualOperations VSD RD SCD SD)
    (request : VirtualOpRequest) : Except PluginError StatusResponse :=
  match self.status_impl with
  | none => Except.ok { status := VirtualStatusResponse.ACTIVE }
  | some impl => do
      let virtual_source_definition ←
        deser gen.fromVirtualSource request.virtual_source.parameters.json
      let virtual_source := request.virtual_source.toVirtualSource virtual_source_definition
      let repository ← deser gen.fromRepository request.repository.parameters.json
      let source_config ← deser gen.fromSourceConfig request.source_config.parameters.json
      let virtual_status ← (impl repository source_config virtual_source).mapError
        PluginError.callbackError
      Except.ok { status := virtual_status.value }

/-- Wrapper for the virtual initialize operation: required; deserializes,
invokes the callback, and returns an empty success result. -/
def VirtualOperations.internal_initialize_op (self : VirtualOperations VSD RD SCD SD)
    (request : VirtualOpRequest) : Except PluginError EmptyResultResponse := do
  let virtual_source_definition ←
    deser gen.fromVirtualSource request.virtual_source.parameters.json
  let virtual_source := request.virtual_source.toVirtualSource virtual_source_definition
  let repository ← deser gen.fromRepository request.repository.parameters.json
  let source_config ← deser gen.fromSourceConfig request.source_config.parameters.json
  match self.initialize_impl with
  | none => Except.error (PluginError.unimplementedOperation
      ("An implementation for the virtual.initialize() operation has not been defined."))
  | some impl => do
      let _ ← (impl repository source_config virtual_source).mapError PluginError.callbackError
      Except.ok ()

/-- Wrapper for the virtual mount specification: deserializes the virtual
source and repository, requires the slot, invokes the callback, marshals the
ownership spec exactly when one is present, and converts every returned mount
in order. The wrapper performs no cardinality check on the mounts list. -/
def VirtualOperations.internal_mount_specification (self : VirtualOperations VSD RD SCD SD)
    (request : VirtualMountSpecRequest) : Except PluginError VirtualMountSpecResponse := do
  let virtual_source_definition ←
    deser gen.fromVirtualSource request.virtual_source.parameters.json
  let virtual_source := request.virtual_source.toVirtualSource virtual_source_definition
  let repository ← deser gen.fromRepository request.repository.parameters.json
  match self.mount_specification_impl with
  | none => Except.error (PluginError.unimplementedOperation
      ("An implementation for the virtual.mount_specification() operation has not been defined."))
  | some impl => do
      let virtual_mount_spec ← (impl repository virtual_source).mapError PluginError.callbackError
      Except.ok { mounts := virtual_mount_spec.mounts.map VirtualOperations.to_protobuf_single_mount
                  ownership_spec :=
                    virtual_mount_spec.ownership_specification.map to_protobuf_ownership_spec }

end Wrappers

section Fixtures

/-- Identity-style serializers over String-valued definition types, used to
evaluate the wrappers on concrete inputs. -/
def genId : GeneratedDefinitions String String String String String :=
  { fromLinkedSource := fun s => Except.ok s
    fromVirtualSource := fun s => Except.ok s
    fromRepository := fun s => Except.ok s
    toRepository := fun s => s
    fromSourceConfig := fun s => Except.ok s
    toSourceConfig := fun s => s
    fromSnapshot := fun s => Except.ok s
    toSnapshot := fun s => s }

/-- Serializers whose virtual-source deserializer rejects its payload, as
json.loads does on a string that is not valid JSON. -/
def genBadVirtualSource : GeneratedDefinitions String String String String String :=
  { genId with fromVirtualSource := fun _ => Except.error ("bad json") }

/-- Serializers all of whose deserializers reject every payload, standing for
requests whose generic payload strings would fail deserialization. -/
def genBadAll : GeneratedDefinitions String String String String String :=
  { fromLinkedSource := fun _ => Except.error ("bad json")
    fromVirtualSource := fun _ => Except.error ("bad json")
    fromRepository := fun _ => Except.error ("bad json")
    toRepository := fun s => s
    fromSourceConfig := fun _ => Except.error ("bad json")
    toSourceConfig := fun s => s
    fromSnapshot := fun _ => Except.error ("bad json")
    toSnapshot := fun s => s }

/-- Concrete remote host used by the evaluation theorems. -/
def host0 : RemoteHost :=
  { name := "host", reference := "host-ref", binary_path := "/bin", scratch_path := "/scratch" }

/-- Concrete remote environment used by the evaluation theorems. -/
def env0 : RemoteEnvironment := { name := "env", reference := "env-ref", host := host0 }

/-- Concrete connection used by the evaluation theorems. -/
def conn0 : Connection := { reference := "conn-ref" }

/-- Wraps a payload string as a PluginDefinedObject. -/
def pdo (s : String) : PluginDefinedObject := { json := s }

/-- Concrete virtual-source message. -/
def vsrcMsg0 : VirtualSourceMsg :=
  { guid := "vs-guid", connection := conn0, parameters := pdo "vsd-params" }

/-- Concrete staged-source message with an empty shared path on the staged
mount. -/
def stagedMsg0 : StagedSourceMsg :=
  { linked_source := { guid := "ls-guid", parameters := pdo "lsd-params" }
    connection := conn0
    staged_mount := { remote_environment := env0, mount_path := "/stage", shared_path := "" } }

/-- Concrete repository discovery request. -/
def repoReq0 : RepositoryDiscoveryRequest := { source_connection := conn0 }

/-- Concrete source-config discovery request. -/
def scReq0 : SourceConfigDiscoveryRequest :=
  { source_connection := conn0, repository := { parameters := pdo "repo-params" } }

/-- Concrete direct-variant request. -/
def directReq0 : DirectOpRequest :=
  { direct_source := { linked_source := { guid := "ls-guid", parameters := pdo "lsd-params" }
                       connection := conn0 }
    repository := { parameters := pdo "repo-params" }
    source_config := { parameters := pdo "sc-params" } }

/-- Concrete staged-variant request. -/
def stagedReq0 : StagedOpRequest :=
  { staged_source := stagedMsg0
    repository := { parameters := pdo "repo-params" }
    source_config := { parameters := pdo "sc-params" } }

/-- Concrete staged mount-specification request. -/
def smountReq0 : StagedMountSpecRequest :=
  { staged_source := stagedMsg0, repository := { parameters := pdo "repo-params" } }

/-- Concrete configure request. -/
def confReq0 : ConfigureRequest :=
  { virtual_source := vsrcMsg0
    repository := { parameters := pdo "repo-params" }
    snapshot := { parameters := pdo "snap-params" } }

/-- Concrete reconfigure request. -/
def reconfReq0 : ReconfigureRequest :=
  { virtual_source := vsrcMsg0
    snapshot := { parameters := pdo "snap-params" }
    source_config := { parameters := pdo "sc-params" } }

/-- Concrete virtual-variant request. -/
def virtReq0 : VirtualOpRequest :=
  { virtual_source := vsrcMsg0
    repository := { parameters := pdo "repo-params" }
    source_config := { parameters := pdo "sc-params" } }

/-- Concrete virtual mount-specification request. -/
def vmountReq0 : VirtualMountSpecRequest :=
  { virtual_source := vsrcMsg0, repository := { parameters := pdo "repo-params" } }

/-- Concrete mount with no shared path. -/
def mount0 : Mount := { remote_environment := env0, mount_path := "/mnt", shared_path := "" }

/-- Concrete mount carrying a shared path. -/
def mountShared0 : Mount :=
  { remote_environment := env0, mount_path := "/mnt", shared_path := "/shared" }

/-- Discovery registry with both slots bound, for registration-conflict
evaluation. -/
def discAll : DiscoveryOperations String String :=
  { repository_impl := some (fun _ => Except.ok [])
    source_config_impl := some (fun _ _ => Except.ok []) }

/-- Linking registry with all seven slots bound. -/
def linkedAll : LinkedOperations String String String String :=
  { pre_snapshot_impl := some (fun _ _ _ => Except.ok ())
    post_snapshot_impl := some (fun _ _ _ => Except.ok ("snap"))
    start_staging_impl := some (fun _ _ _ => Except.ok ())
    stop_staging_impl := some (fun _ _ _ => Except.ok ())
    status_impl := some (fun _ _ _ => Except.ok { value := 0 })
    worker_impl := some (fun _ _ _ => Except.ok ())
    mount_specification_impl := some (fun _ _ =>
      Except.ok { mounts := [mount0], ownership_specification := none }) }

/-- Virtualization registry with all ten slots bound. -/
def virtAll : VirtualOperations String String String String :=
  { configure_impl := some (fun _ _ _ => Except.ok ("cfg"))
    unconfigure_impl := some (fun _ _ _ => Except.ok ())
    reconfigure_impl := some (fun _ _ _ => Except.ok ("cfg"))
    start_impl := some (fun _ _ _ => Except.ok ())
    stop_impl := some (fun _ _ _ => Except.ok ())
    pre_snapshot_impl := some (fun _ _ _ => Except.ok ())
    post_snapshot_impl := some (fun _ _ _ => Except.ok ("snap"))
    status_impl := some (fun _ _ _ => Except.ok { value := 0 })
    initialize_impl := some (fun _ _ _ => Except.ok ())
    mount_specification_impl := some (fun _ _ =>
      Except.ok { mounts := [mount0], ownership_specification := none }) }

/-- Discovery registry with no slot bound, over String definition types. -/
def discNone : DiscoveryOperations String String := DiscoveryOperations.init

/-- Linking registry with no slot bound, over String definition types. -/
def linkedNone : LinkedOperations String String String String := LinkedOperations.init

/-- Virtualization registry with no slot bound, over String definition types. -/
def virtNone : VirtualOperations String String String String := VirtualOperations.init

/-- Alternate staged-variant request with different contents, for the
request-independence theorems. -/
def stagedReq1 : StagedOpRequest :=
  { staged_source := { linked_source := { guid := "other-guid", parameters := pdo "other-lsd" }
                       connection := { reference := "other-conn" }
                       staged_mount := { remote_environment := env0
                                         mount_path := "/other", shared_path := "/sh" } }
    repository := { parameters := pdo "other-repo" }
    source_config := { parameters := pdo "other-sc" } }

/-- Alternate virtual-variant request with different contents, for the
request-independence theorems. -/
def virtReq1 : VirtualOpRequest :=
  { virtual_source := { guid := "other-guid", connection := { reference := "other-conn" }
                        parameters := pdo "other-vsd" }
    repository := { parameters := pdo "other-repo" }
    source_config := { parameters := pdo "other-sc" } }

/-- Linking registry whose only bound slot is mount specification, returning
the given result regardless of its arguments. -/
def linkedMS (ms : MountSpecification) : LinkedOperations String String String String :=
  { LinkedOperations.init with mount_specification_impl := some (fun _ _ => Except.ok ms) }

/-- Virtualization registry whose only bound slot is mount specification,
returning the given result regardless of its arguments. -/
def virtMS (ms : MountSpecification) : VirtualOperations String String String String :=
  { VirtualOperations.init with mount_specification_impl := some (fun _ _ => Except.ok ms) }

/-- Virtualization registry whose only bound slot is configure, returning a
source-config definition computed from the virtual source it received. -/
def virtConf : VirtualOperations String String String String :=
  { VirtualOperations.init with
      configure_impl := some (fun vs _ _ => Except.ok (vs.parameters ++ "-configured")) }

/-- Three concrete mounts with distinct paths, in a fixed order. -/
def mountsThree : List Mount :=
  [{ remote_environment := env0, mount_path := "/m1", shared_path := "" },
   { remote_environment := env0, mount_path := "/m2", shared_path := "/s2" },
   { remote_environment := env0, mount_path := "/m3", shared_path := "" }]

/-- Mount-specification result carrying the three mounts and an ownership
spec. -/
def specThree : MountSpecification :=
  { mounts := mountsThree, ownership_specification := some { uid := 7, gid := 8 } }

/-- Discovery registry whose callbacks all raise. -/
def discFail : DiscoveryOperations String String :=
  { repository_impl := some (fun _ => Except.error ("boom"))
    source_config_impl := some (fun _ _ => Except.error ("boom")) }

/-- Linking registry whose callbacks all raise. -/
def linkedFail : LinkedOperations String String String String :=
  { pre_snapshot_impl := some (fun _ _ _ => Except.error ("boom"))
    post_snapshot_impl := some (fun _ _ _ => Except.error ("boom"))
    start_staging_impl := some (fun _ _ _ => Except.error ("boom"))
    stop_staging_impl := some (fun _ _ _ => Except.error ("boom"))
    status_impl := some (fun _ _ _ => Except.error ("boom"))
    worker_impl := some (fun _ _ _ => Except.error ("boom"))
    mount_specification_impl := some (fun _ _ => Except.error ("boom")) }

/-- Virtualization registry whose callbacks all raise. -/
def virtFail : VirtualOperations String String String String :=
  { configure_impl := some (fun _ _ _ => Except.error ("boom"))
    unconfigure_impl := some (fun _ _ _ => Except.error ("boom"))
    reconfigure_impl := some (fun _ _ _ => Except.error ("boom"))
    start_impl := some (fun _ _ _ => Except.error ("boom"))
    stop_impl := some (fun _ _ _ => Except.error ("boom"))
    pre_snapshot_impl := some (fun _ _ _ => Except.error ("boom"))
    post_snapshot_impl := some (fun _ _ _ => Except.error ("boom"))
    status_impl := some (fun _ _ _ => Except.error ("boom"))
    initialize_impl := some (fun _ _ _ => Except.error ("boom"))
    mount_specification_impl := some (fun _ _ => Except.error ("boom")) }

end Fixtures

/-- C2: for every operation slot in the discovery, linking and virtualization
registries, registering a second callback under a name that already has a
bound callback fails with a DuplicateRegistrationError. A registration method
returns an updated registry only through a success value, so a failed
registration yields no new registry state and the originally bound callback
remains the one bound to the slot. -/
theorem C2_duplicate_registration {LSD VSD RD SCD SD : Type} :
    (∀ (s : DiscoveryOperations RD SCD) f g, s.repository_impl = some f →
        s.repository g = Except.error (PluginError.duplicateRegistration
          ("An implementation for discovery.repository() operation has already been defined.")))
  ∧ (∀ (s : DiscoveryOperations RD SCD) f g, s.source_config_impl = some f →
        s.source_config g = Except.error (PluginError.duplicateRegistration
          ("An implementation for discovery.source_config() operation has already been defined.")))
  ∧ (∀ (s : LinkedOperations LSD RD SCD SD) f g, s.pre_snapshot_impl = some f →
        s.pre_snapshot g = Except.error (PluginError.duplicateRegistration
          ("An implementation for linked.pre_snapshot() operation has already been defined.")))
  ∧ (∀ (s : LinkedOperations LSD RD SCD SD) f g, s.post_snapshot_impl = some f →
        s.post_snapshot g = Except.error (PluginError.duplicateRegistration
          ("An implementation for linked.post_snapshot() operation has already been defined.")))
  ∧ (∀ (s : LinkedOperations LSD RD SCD SD) f g, s.start_staging_impl = some f →
        s.start_staging g = Except.error (PluginError.duplicateRegistration
          ("An implementation for linked.start_staging() operation has already been defined.")))
  ∧ (∀ (s : LinkedOperations LSD RD SCD SD) f g, s.stop_staging_impl = some f →
        s.stop_staging g = Except.error (PluginError.duplicateRegistration
          ("An implementation for linked.stop_staging() operation has already been defined.")))
  ∧ (∀ (s : LinkedOperations LSD RD SCD SD) f g, s.status_impl = some f →
        s.status g = Except.error (PluginError.duplicateRegistration
          ("An implementation for linked.status() operation has already been defined.")))
  ∧ (∀ (s : LinkedOperations LSD RD SCD SD) f g, s.worker_impl = some f →
        s.worker g = Except.error (PluginError.duplicateRegistration
          ("An implementation for linked.worker() operation has already been defined.")))
  ∧ (∀ (s : LinkedOperations LSD RD SCD SD) f g, s.mount_specification_impl = some f →
        s.mount_specification g = Except.error (PluginError.duplicateRegistration
          ("An implementation for linked.mount_specification() operation has already been defined.")))
  ∧ (∀ (s : VirtualOperations VSD RD SCD SD) f g, s.configure_impl = some f →
        s.configure g = Except.error (PluginError.duplicateRegistration
          ("An implementation for virtual.configure() operation has already been defined.")))
  ∧ (∀ (s : VirtualOperations VSD RD SCD SD) f g, s.unconfigure_impl = some f →
        s.unconfigure g = Except.error (PluginError.duplicateRegistration
          ("An implementation for virtual.unconfigure() operation has already been defined.")))
  ∧ (∀ (s : VirtualOperations VSD RD SCD SD) f g, s.reconfigure_impl = some f →
        s.reconfigure g = Except.error (PluginError.duplicateRegistration
          ("An implementation for virtual.reconfigure() operation has already been defined.")))
  ∧ (∀ (s : VirtualOperations VSD RD SCD SD) f g, s.start_impl = some f →
        s.start g = Except.error (PluginError.duplicateRegistration
          ("An implementation for virtual.start() operation has already been defined.")))
  ∧ (∀ (s : VirtualOperations VSD RD SCD SD) f g, s.stop_impl = some f →
        s.stop g = Except.error (PluginError.duplicateRegistration
          ("An implementation for virtual.stop() operation has already been defined.")))
  ∧ (∀ (s : VirtualOperations VSD RD SCD SD) f g, s.pre_snapshot_impl = some f →
        s.pre_snapshot g = Except.error (PluginError.duplicateRegistration
          ("An implementation for virtual.pre_snapshot() operation has already been defined.")))
  ∧ (∀ (s : VirtualOperations VSD RD SCD SD) f g, s.post_snapshot_impl = some f →
        s.post_snapshot g = Except.error (PluginError.duplicateRegistration
          ("An implementation for virtual.post_snapshot() operation has already been defined.")))
  ∧ (∀ (s : VirtualOperations VSD RD SCD SD) f g, s.status_impl = some f →
        s.status g = Except.error (PluginError.duplicateRegistration
          ("An implementation for virtual.status() operation has already been defined.")))
  ∧ (∀ (s : VirtualOperations VSD RD SCD SD) f g, s.initialize_impl = some f →
        s.initialize_op g = Except.error (PluginError.duplicateRegistration
          ("An implementation for virtual.initialize() operation has already been defined.")))
  ∧ (∀ (s : VirtualOperations VSD RD SCD SD) f g, s.mount_specification_impl = some f →
        s.mount_specification g = Except.error (PluginError.duplicateRegistration
          ("An implementation for virtual.mount_specification() operation has already been defined."))) := by
  refine ⟨?_, ?_, ?_, ?_, ?_, ?_, ?_, ?_, ?_, ?_, ?_, ?_, ?_, ?_, ?_, ?_, ?_, ?_, ?_⟩ <;>
    intro s f g h <;>
    simp [DiscoveryOperations.repository, DiscoveryOperations.source_config,
      LinkedOperations.pre_snapshot, LinkedOperations.post_snapshot,
      LinkedOperations.start_staging, LinkedOperations.stop_staging,
      LinkedOperations.status, LinkedOperations.worker,
      LinkedOperations.mount_specification, VirtualOperations.configure,
      VirtualOperations.unconfigure, VirtualOperations.reconfigure,
      VirtualOperations.start, VirtualOperations.stop,
      VirtualOperations.pre_snapshot, VirtualOperations.post_snapshot,
      VirtualOperations.status, VirtualOperations.initialize_op,
      VirtualOperations.mount_specification, h]

/-- Witness for C2: on registries whose every slot is bound, each of the 19
registration calls is evaluated at a concrete second callback and fails with
the duplicate-registration error. -/
theorem C2_witness :
    discAll.repository (fun _ => Except.ok []) = Except.error (PluginError.duplicateRegistration
      ("An implementation for discovery.repository() operation has already been defined."))
  ∧ discAll.source_config (fun _ _ => Except.ok []) = Except.error (PluginError.duplicateRegistration
      ("An implementation for discovery.source_config() operation has already been defined."))
  ∧ linkedAll.pre_snapshot (fun _ _ _ => Except.ok ()) = Except.error (PluginError.duplicateRegistration
      ("An implementation for linked.pre_snapshot() operation has already been defined."))
  ∧ linkedAll.post_snapshot (fun _ _ _ => Except.ok ("s2")) = Except.error (PluginError.duplicateRegistration
      ("An implementation for linked.post_snapshot() operation has already been defined."))
  ∧ linkedAll.start_staging (fun _ _ _ => Except.ok ()) = Except.error (PluginError.duplicateRegistration
      ("An implementation for linked.start_staging() operation has already been defined."))
  ∧ linkedAll.stop_staging (fun _ _ _ => Except.ok ()) = Except.error (PluginError.duplicateRegistration
      ("An implementation for linked.stop_staging() operation has already been defined."))
  ∧ linkedAll.status (fun _ _ _ => Except.ok { value := 1 }) = Except.error (PluginError.duplicateRegistration
      ("An implementation for linked.status() operation has already been defined."))
  ∧ linkedAll.worker (fun _ _ _ => Except.ok ()) = Except.error (PluginError.duplicateRegistration
      ("An implementation for linked.worker() operation has already been defined."))
  ∧ linkedAll.mount_specification (fun _ _ => Except.ok { mounts := [], ownership_specification := none }) =
      Except.error (PluginError.duplicateRegistration
      ("An implementation for linked.mount_specification() operation has already been defined."))
  ∧ virtAll.configure (fun _ _ _ => Except.ok ("c2")) = Except.error (PluginError.duplicateRegistration
      ("An implementation for virtual.configure() operation has already been defined."))
  ∧ virtAll.unconfigure (fun _ _ _ => Except.ok ()) = Except.error (PluginError.duplicateRegistration
      ("An implementation for virtual.unconfigure() operation has already been defined."))
  ∧ virtAll.reconfigure (fun _ _ _ => Except.ok ("c2")) = Except.error (PluginError.duplicateRegistration
      ("An implementation for virtual.reconfigure() operation has already been defined."))
  ∧ virtAll.start (fun _ _ _ => Except.ok ()) = Except.error (PluginError.duplicateRegistration
      ("An implementation for virtual.start() operation has already been defined."))
  ∧ virtAll.stop (fun _ _ _ => Except.ok ()) = Except.error (PluginError.duplicateRegistration
      ("An implementation for virtual.stop() operation has already been defined."))
  ∧ virtAll.pre_snapshot (fun _ _ _ => Except.ok ()) = Except.error (PluginError.duplicateRegistration
      ("An implementation for virtual.pre_snapshot() operation has already been defined."))
  ∧ virtAll.post_snapshot (fun _ _ _ => Except.ok ("s2")) = Except.error (PluginError.duplicateRegistration
      ("An implementation for virtual.post_snapshot() operation has already been defined."))
  ∧ virtAll.status (fun _ _ _ => Except.ok { value := 1 }) = Except.error (PluginError.duplicateRegistration
      ("An implementation for virtual.status() operation has already been defined."))
  ∧ virtAll.initialize_op (fun _ _ _ => Except.ok ()) = Except.error (PluginError.duplicateRegistration
      ("An implementation for virtual.initialize() operation has already been defined."))
  ∧ virtAll.mount_specification (fun _ _ => Except.ok { mounts := [], ownership_specification := none }) =
      Except.error (PluginError.duplicateRegistration
      ("An implementation for virtual.mount_specification() operation has already been defined.")) := by
  obtain ⟨h1, h2, h3, h4, h5, h6, h7, h8, h9, h10, h11, h12, h13, h14, h15, h16, h17, h18, h19⟩ :=
    @C2_duplicate_registration String String String String String
  exact ⟨h1 _ _ _ rfl, h2 _ _ _ rfl, h3 _ _ _ rfl, h4 _ _ _ rfl, h5 _ _ _ rfl, h6 _ _ _ rfl,
    h7 _ _ _ rfl, h8 _ _ _ rfl, h9 _ _ _ rfl, h10 _ _ _ rfl, h11 _ _ _ rfl, h12 _ _ _ rfl,
    h13 _ _ _ rfl, h14 _ _ _ rfl, h15 _ _ _ rfl, h16 _ _ _ rfl, h17 _ _ _ rfl, h18 _ _ _ rfl,
    h19 _ _ _ rfl⟩

/-- Computation rule: binding a successful Except value applies the
continuation. -/
theorem ok_bind {ε α β : Type} (a : α) (f : α → Except ε β) :
    (Except.ok a : Except ε α) >>= f = f a := rfl

/-- Computation rule: binding a failed Except value short-circuits. -/
theorem error_bind {ε α β : Type} (e : ε) (f : α → Except ε β) :
    (Except.error e : Except ε α) >>= f = Except.error e := rfl

/-- Computation rule: mapError leaves a successful value unchanged. -/
theorem ok_mapError {ε ζ α : Type} (a : α) (f : ε → ζ) :
    (Except.ok a : Except ε α).mapError f = Except.ok a := rfl

/-- Computation rule: mapError transforms the carried error. -/
theorem error_mapError {ε ζ α : Type} (e : ε) (f : ε → ζ) :
    (Except.error e : Except ε α).mapError f = Except.error (f e) := rfl

/-- C3 (amended): dispatching a required operation while no callback is bound
fails with an UnimplementedOperationError, invokes no callback, and produces
no response, for every request whose payload fields deserialize successfully.
The deserialization proviso is needed because every required wrapper except
discovery.repository deserializes the request payloads before checking the
slot, so a request with an undeserializable payload fails with the
deserialization error instead. -/
theorem C3_required_unimplemented {LSD VSD RD SCD SD : Type} :
    (∀ (gen : GeneratedDefinitions LSD VSD RD SCD SD) (s : DiscoveryOperations RD SCD)
        (req : RepositoryDiscoveryRequest), s.repository_impl = none →
        DiscoveryOperations.internal_repository gen s req = Except.error
          (PluginError.unimplementedOperation
            ("An implementation for the discovery.repository() operation has not been defined.")))
  ∧ (∀ (gen : GeneratedDefinitions LSD VSD RD SCD SD) (s : DiscoveryOperations RD SCD)
        (req : SourceConfigDiscoveryRequest) (rd : RD), s.source_config_impl = none →
        gen.fromRepository req.repository.parameters.json = Except.ok rd →
        DiscoveryOperations.internal_source_config gen s req = Except.error
          (PluginError.unimplementedOperation
            ("An implementation for the discovery.source_config() operation has not been defined.")))
  ∧ (∀ (gen : GeneratedDefinitions LSD VSD RD SCD SD) (s : LinkedOperations LSD RD SCD SD)
        (req : DirectOpRequest) (lsd : LSD) (rd : RD) (scd : SCD), s.pre_snapshot_impl = none →
        gen.fromLinkedSource req.direct_source.linked_source.parameters.json = Except.ok lsd →
        gen.fromRepository req.repository.parameters.json = Except.ok rd →
        gen.fromSourceConfig req.source_config.parameters.json = Except.ok scd →
        LinkedOperations.internal_direct_pre_snapshot gen s req = Except.error
          (PluginError.unimplementedOperation
            ("An implementation for the linked.pre_snapshot() operation has not been defined.")))
  ∧ (∀ (gen : GeneratedDefinitions LSD VSD RD SCD SD) (s : LinkedOperations LSD RD SCD SD)
        (req : DirectOpRequest) (lsd : LSD) (rd : RD) (scd : SCD), s.post_snapshot_impl = none →
        gen.fromLinkedSource req.direct_source.linked_source.parameters.json = Except.ok lsd →
        gen.fromRepository req.repository.parameters.json = Except.ok rd →
        gen.fromSourceConfig req.source_config.parameters.json = Except.ok scd →
        LinkedOperations.internal_direct_post_snapshot gen s req = Except.error
          (PluginError.unimplementedOperation
            ("An implementation for the linked.post_snapshot() operation has not been defined.")))
  ∧ (∀ (gen : GeneratedDefinitions LSD VSD RD SCD SD) (s : LinkedOperations LSD RD SCD SD)
        (req : StagedOpRequest) (lsd : LSD) (rd : RD) (scd : SCD), s.post_snapshot_impl = none →
        gen.fromLinkedSource req.staged_source.linked_source.parameters.json = Except.ok lsd →
        gen.fromRepository req.repository.parameters.json = Except.ok rd →
        gen.fromSourceConfig req.source_config.parameters.json = Except.ok scd →
        LinkedOperations.internal_staged_post_snapshot gen s req = Except.error
          (PluginError.unimplementedOperation
            ("An implementation for the linked.post_snapshot() operation has not been defined.")))
  ∧ (∀ (gen : GeneratedDefinitions LSD VSD RD SCD SD) (s : LinkedOperations LSD RD SCD SD)
        (req : StagedMountSpecRequest) (lsd : LSD) (rd : RD), s.mount_specification_impl = none →
        gen.fromLinkedSource req.staged_source.linked_source.parameters.json = Except.ok lsd →
        gen.fromRepository req.repository.parameters.json = Except.ok rd →
        LinkedOperations.internal_mount_specification gen s req = Except.error
          (PluginError.unimplementedOperation
            ("An implementation for the linked.mount_specification() operation has not been defined.")))
  ∧ (∀ (gen : GeneratedDefinitions LSD VSD RD SCD SD) (s : VirtualOperations VSD RD SCD SD)
        (req : ConfigureRequest) (vsd : VSD) (rd : RD) (sd : SD), s.configure_impl = none →
        gen.fromVirtualSource req.virtual_source.parameters.json = Except.ok vsd →
        gen.fromRepository req.repository.parameters.json = Except.ok rd →
        gen.fromSnapshot req.snapshot.parameters.json = Except.ok sd →
        VirtualOperations.internal_configure gen s req = Except.error
          (PluginError.unimplementedOperation
            ("An implementation the for virtual.configure() operation has not been defined.")))
  ∧ (∀ (gen : GeneratedDefinitions LSD VSD RD SCD SD) (s : VirtualOperations VSD RD SCD SD)
        (req : ReconfigureRequest) (vsd : VSD) (sd : SD) (scd : SCD), s.reconfigure_impl = none →
        gen.fromVirtualSource req.virtual_source.parameters.json = Except.ok vsd →
        gen.fromSnapshot req.snapshot.parameters.json = Except.ok sd →
        gen.fromSourceConfig req.source_config.parameters.json = Except.ok scd →
        VirtualOperations.internal_reconfigure gen s req = Except.error
          (PluginError.unimplementedOperation
            ("An implementation for the virtual.reconfigure() operation has not been defined.")))
  ∧ (∀ (gen : GeneratedDefinitions LSD VSD RD SCD SD) (s : VirtualOperations VSD RD SCD SD)
        (req : VirtualOpRequest) (vsd : VSD) (rd : RD) (scd : SCD), s.post_snapshot_impl = none →
        gen.fromVirtualSource req.virtual_source.parameters.json = Except.ok vsd →
        gen.fromRepository req.repository.parameters.json = Except.ok rd →
        gen.fromSourceConfig req.source_config.parameters.json = Except.ok scd →
        VirtualOperations.internal_post_snapshot gen s req = Except.error
          (PluginError.unimplementedOperation
            ("An implementation for the virtual.post_snapshot() operation has not been defined.")))
  ∧ (∀ (gen : GeneratedDefinitions LSD VSD RD SCD SD) (s : VirtualOperations VSD RD SCD SD)
        (req : VirtualOpRequest) (vsd : VSD) (rd : RD) (scd : SCD), s.initialize_impl = none →
        gen.fromVirtualSource req.virtual_source.parameters.json = Except.ok vsd →
        gen.fromRepository req.repository.parameters.json = Except.ok rd →
        gen.fromSourceConfig req.source_config.parameters.json = Except.ok scd →
        VirtualOperations.internal_initialize_op gen s req = Except.error
          (PluginError.unimplementedOperation
            ("An implementation for the virtual.initialize() operation has not been defined.")))
  ∧ (∀ (gen : GeneratedDefinitions LSD VSD RD SCD SD) (s : VirtualOperations VSD RD SCD SD)
        (req : VirtualMountSpecRequest) (vsd : VSD) (rd : RD), s.mount_specification_impl = none →
        gen.fromVirtualSource req.virtual_source.parameters.json = Except.ok vsd →
        gen.fromRepository req.repository.parameters.json = Except.ok rd →
        VirtualOperations.internal_mount_specification gen s req = Except.error
          (PluginError.unimplementedOperation
            ("An implementation for the virtual.mount_specification() operation has not been defined."))) := by
  refine ⟨?_, ?_, ?_, ?_, ?_, ?_, ?_, ?_, ?_, ?_, ?_⟩ <;>
    intros <;>
    simp [DiscoveryOperations.internal_repository, DiscoveryOperations.internal_source_config,
      LinkedOperations.internal_direct_pre_snapshot, LinkedOperations.internal_direct_post_snapshot,
      LinkedOperations.internal_staged_post_snapshot, LinkedOperations.internal_mount_specification,
      VirtualOperations.internal_configure, VirtualOperations.internal_reconfigure,
      VirtualOperations.internal_post_snapshot, VirtualOperations.internal_initialize_op,
      VirtualOperations.internal_mount_specification, deser, ok_bind, error_bind, ok_mapError,
      error_mapError, *]

/-- Counterexample to C3 as stated for every request: dispatching
virtual.configure with no callback bound and a virtual-source payload that
fails to deserialize errors with the deserialization failure, not with an
UnimplementedOperationError, because the configure wrapper deserializes the
request payloads before checking the slot. -/
theorem C3_counterexample :
    VirtualOperations.internal_configure genBadVirtualSource virtNone confReq0 =
      Except.error (PluginError.deserializationError ("bad json")) := by
  rfl

/-- Witness for C3: each of the 11 required dispatch wrappers evaluated on a
concrete registry with no bound callback and a concrete request whose payloads
deserialize, failing with its unimplemented-operation error. -/
theorem C3_witness :
    DiscoveryOperations.internal_repository genId discNone repoReq0 = Except.error
      (PluginError.unimplementedOperation
        ("An implementation for the discovery.repository() operation has not been defined."))
  ∧ DiscoveryOperations.internal_source_config genId discNone scReq0 = Except.error
      (PluginError.unimplementedOperation
        ("An implementation for the discovery.source_config() operation has not been defined."))
  ∧ LinkedOperations.internal_direct_pre_snapshot genId linkedNone directReq0 = Except.error
      (PluginError.unimplementedOperation
        ("An implementation for the linked.pre_snapshot() operation has not been defined."))
  ∧ LinkedOperations.internal_direct_post_snapshot genId linkedNone directReq0 = Except.error
      (PluginError.unimplementedOperation
        ("An implementation for the linked.post_snapshot() operation has not been defined."))
  ∧ LinkedOperations.internal_staged_post_snapshot genId linkedNone stagedReq0 = Except.error
      (PluginError.unimplementedOperation
        ("An implementation for the linked.post_snapshot() operation has not been defined."))
  ∧ LinkedOperations.internal_mount_specification genId linkedNone smountReq0 = Except.error
      (PluginError.unimplementedOperation
        ("An implementation for the linked.mount_specification() operation has not been defined."))
  ∧ VirtualOperations.internal_configure genId virtNone confReq0 = Except.error
      (PluginError.unimplementedOperation
        ("An implementation the for virtual.configure() operation has not been defined."))
  ∧ VirtualOperations.internal_reconfigure genId virtNone reconfReq0 = Except.error
      (PluginError.unimplementedOperation
        ("An implementation for the virtual.reconfigure() operation has not been defined."))
  ∧ VirtualOperations.internal_post_snapshot genId virtNone virtReq0 = Except.error
      (PluginError.unimplementedOperation
        ("An implementation for the virtual.post_snapshot() operation has not been defined."))
  ∧ VirtualOperations.internal_initialize_op genId virtNone virtReq0 = Except.error
      (PluginError.unimplementedOperation
        ("An implementation for the virtual.initialize() operation has not been defined."))
  ∧ VirtualOperations.internal_mount_specification genId virtNone vmountReq0 = Except.error
      (PluginError.unimplementedOperation
        ("An implementation for the virtual.mount_specification() operation has not been defined.")) := by
  obtain ⟨h1, h2, h3, h4, h5, h6, h7, h8, h9, h10, h11⟩ :=
    @C3_required_unimplemented String String String String String
  exact ⟨h1 genId discNone repoReq0 rfl,
    h2 genId discNone scReq0 "repo-params" rfl rfl,
    h3 genId linkedNone directReq0 "lsd-params" "repo-params" "sc-params" rfl rfl rfl rfl,
    h4 genId linkedNone directReq0 "lsd-params" "repo-params" "sc-params" rfl rfl rfl rfl,
    h5 genId linkedNone stagedReq0 "lsd-params" "repo-params" "sc-params" rfl rfl rfl rfl,
    h6 genId linkedNone smountReq0 "lsd-params" "repo-params" rfl rfl rfl,
    h7 genId virtNone confReq0 "vsd-params" "repo-params" "snap-params" rfl rfl rfl rfl,
    h8 genId virtNone reconfReq0 "vsd-params" "snap-params" "sc-params" rfl rfl rfl rfl,
    h9 genId virtNone virtReq0 "vsd-params" "repo-params" "sc-params" rfl rfl rfl rfl,
    h10 genId virtNone virtReq0 "vsd-params" "repo-params" "sc-params" rfl rfl rfl rfl,
    h11 genId virtNone vmountReq0 "vsd-params" "repo-params" rfl rfl rfl⟩

/-- C4: dispatching an optional operation with no bound callback does not
raise and returns the documented default: an empty success result for the
staged pre-snapshot, start-staging, stop-staging and worker operations and
for virtual unconfigure, start, stop and pre-snapshot; and an ACTIVE status
for the staged and virtual status operations. -/
theorem C4_optional_defaults {LSD VSD RD SCD SD : Type} :
    (∀ (gen : GeneratedDefinitions LSD VSD RD SCD SD) (s : LinkedOperations LSD RD SCD SD)
        (req : StagedOpRequest), s.pre_snapshot_impl = none →
        LinkedOperations.internal_staged_pre_snapshot gen s req = Except.ok ())
  ∧ (∀ (gen : GeneratedDefinitions LSD VSD RD SCD SD) (s : LinkedOperations LSD RD SCD SD)
        (req : StagedOpRequest), s.start_staging_impl = none →
        LinkedOperations.internal_start_staging gen s req = Except.ok ())
  ∧ (∀ (gen : GeneratedDefinitions LSD VSD RD SCD SD) (s : LinkedOperations LSD RD SCD SD)
        (req : StagedOpRequest), s.stop_staging_impl = none →
        LinkedOperations.internal_stop_staging gen s req = Except.ok ())
  ∧ (∀ (gen : GeneratedDefinitions LSD VSD RD SCD SD) (s : LinkedOperations LSD RD SCD SD)
        (req : StagedOpRequest), s.worker_impl = none →
        LinkedOperations.internal_worker gen s req = Except.ok ())
  ∧ (∀ (gen : GeneratedDefinitions LSD VSD RD SCD SD) (s : LinkedOperations LSD RD SCD SD)
        (req : StagedOpRequest), s.status_impl = none →
        LinkedOperations.internal_status gen s req =
          Except.ok { status := StagedStatusResult.ACTIVE })
  ∧ (∀ (gen : GeneratedDefinitions LSD VSD RD SCD SD) (s : VirtualOperations VSD RD SCD SD)
        (req : VirtualOpRequest), s.unconfigure_impl = none →
        VirtualOperations.internal_unconfigure gen s req = Except.ok ())
  ∧ (∀ (gen : GeneratedDefinitions LSD VSD RD SCD SD) (s : VirtualOperations VSD RD SCD SD)
        (req : VirtualOpRequest), s.start_impl = none →
        VirtualOperations.internal_start gen s req = Except.ok ())
  ∧ (∀ (gen : GeneratedDefinitions LSD VSD RD SCD SD) (s : VirtualOperations VSD RD SCD SD)
        (req : VirtualOpRequest), s.stop_impl = none →
        VirtualOperations.internal_stop gen s req = Except.ok ())
  ∧ (∀ (gen : GeneratedDefinitions LSD VSD RD SCD SD) (s : VirtualOperations VSD RD SCD SD)
        (req : VirtualOpRequest), s.pre_snapshot_impl = none →
        VirtualOperations.internal_pre_snapshot gen s req = Except.ok ())
  ∧ (∀ (gen : GeneratedDefinitions LSD VSD RD SCD SD) (s : VirtualOperations VSD RD SCD SD)
        (req : VirtualOpRequest), s.status_impl = none →
        VirtualOperations.internal_status gen s req =
          Except.ok { status := VirtualStatusResponse.ACTIVE }) := by
  refine ⟨?_, ?_, ?_, ?_, ?_, ?_, ?_, ?_, ?_, ?_⟩ <;>
    intros <;>
    simp [LinkedOperations.internal_staged_pre_snapshot, LinkedOperations.internal_start_staging,
      LinkedOperations.internal_stop_staging, LinkedOperations.internal_worker,
      LinkedOperations.internal_status, VirtualOperations.internal_unconfigure,
      VirtualOperations.internal_start, VirtualOperations.internal_stop,
      VirtualOperations.internal_pre_snapshot, VirtualOperations.internal_status, *]

/-- Witness for C4: every optional wrapper evaluated on a registry with no
bound callback and a concrete request returns its documented default. -/
theorem C4_witness :
    LinkedOperations.internal_staged_pre_snapshot genId linkedNone stagedReq0 = Except.ok ()
  ∧ LinkedOperations.internal_start_staging genId linkedNone stagedReq0 = Except.ok ()
  ∧ LinkedOperations.internal_stop_staging genId linkedNone stagedReq0 = Except.ok ()
  ∧ LinkedOperations.internal_worker genId linkedNone stagedReq0 = Except.ok ()
  ∧ LinkedOperations.internal_status genId linkedNone stagedReq0 =
      Except.ok { status := StagedStatusResult.ACTIVE }
  ∧ VirtualOperations.internal_unconfigure genId virtNone virtReq0 = Except.ok ()
  ∧ VirtualOperations.internal_start genId virtNone virtReq0 = Except.ok ()
  ∧ VirtualOperations.internal_stop genId virtNone virtReq0 = Except.ok ()
  ∧ VirtualOperations.internal_pre_snapshot genId virtNone virtReq0 = Except.ok ()
  ∧ VirtualOperations.internal_status genId virtNone virtReq0 =
      Except.ok { status := VirtualStatusResponse.ACTIVE } := by
  obtain ⟨h1, h2, h3, h4, h5, h6, h7, h8, h9, h10⟩ :=
    @C4_optional_defaults String String String String String
  exact ⟨h1 genId linkedNone stagedReq0 rfl, h2 genId linkedNone stagedReq0 rfl,
    h3 genId linkedNone stagedReq0 rfl, h4 genId linkedNone stagedReq0 rfl,
    h5 genId linkedNone stagedReq0 rfl, h6 genId virtNone virtReq0 rfl,
    h7 genId virtNone virtReq0 rfl, h8 genId virtNone virtReq0 rfl,
    h9 genId virtNone virtReq0 rfl, h10 genId virtNone virtReq0 rfl⟩

/-- C10: when an optional operation has no bound callback, the dispatch result
is independent of the request contents and of the plugin-defined
deserializers: the wrapper returns before touching any request payload, so
any two requests, under any two deserializer families (including one that
rejects every payload), yield the identical default response. -/
theorem C10_default_independent {LSD VSD RD SCD SD : Type} :
    (∀ (g1 g2 : GeneratedDefinitions LSD VSD RD SCD SD) (s : LinkedOperations LSD RD SCD SD)
        (r1 r2 : StagedOpRequest), s.pre_snapshot_impl = none →
        LinkedOperations.internal_staged_pre_snapshot g1 s r1 =
          LinkedOperations.internal_staged_pre_snapshot g2 s r2)
  ∧ (∀ (g1 g2 : GeneratedDefinitions LSD VSD RD SCD SD) (s : LinkedOperations LSD RD SCD SD)
        (r1 r2 : StagedOpRequest), s.start_staging_impl = none →
        LinkedOperations.internal_start_staging g1 s r1 =
          LinkedOperations.internal_start_staging g2 s r2)
  ∧ (∀ (g1 g2 : GeneratedDefinitions LSD VSD RD SCD SD) (s : LinkedOperations LSD RD SCD SD)
        (r1 r2 : StagedOpRequest), s.stop_staging_impl = none →
        LinkedOperations.internal_stop_staging g1 s r1 =
          LinkedOperations.internal_stop_staging g2 s r2)
  ∧ (∀ (g1 g2 : GeneratedDefinitions LSD VSD RD SCD SD) (s : LinkedOperations LSD RD SCD SD)
        (r1 r2 : StagedOpRequest), s.worker_impl = none →
        LinkedOperations.internal_worker g1 s r1 = LinkedOperations.internal_worker g2 s r2)
  ∧ (∀ (g1 g2 : GeneratedDefinitions LSD VSD RD SCD SD) (s : LinkedOperations LSD RD SCD SD)
        (r1 r2 : StagedOpRequest), s.status_impl = none →
        LinkedOperations.internal_status g1 s r1 = LinkedOperations.internal_status g2 s r2)
  ∧ (∀ (g1 g2 : GeneratedDefinitions LSD VSD RD SCD SD) (s : VirtualOperations VSD RD SCD SD)
        (r1 r2 : VirtualOpRequest), s.unconfigure_impl = none →
        VirtualOperations.internal_unconfigure g1 s r1 =
          VirtualOperations.internal_unconfigure g2 s r2)
  ∧ (∀ (g1 g2 : GeneratedDefinitions LSD VSD RD SCD SD) (s : VirtualOperations VSD RD SCD SD)
        (r1 r2 : VirtualOpRequest), s.start_impl = none →
        VirtualOperations.internal_start g1 s r1 = VirtualOperations.internal_start g2 s r2)
  ∧ (∀ (g1 g2 : GeneratedDefinitions LSD VSD RD SCD SD) (s : VirtualOperations VSD RD SCD SD)
        (r1 r2 : VirtualOpRequest), s.stop_impl = none →
        VirtualOperations.internal_stop g1 s r1 = VirtualOperations.internal_stop g2 s r2)
  ∧ (∀ (g1 g2 : GeneratedDefinitions LSD VSD RD SCD SD) (s : VirtualOperations VSD RD SCD SD)
        (r1 r2 : VirtualOpRequest), s.pre_snapshot_impl = none →
        VirtualOperations.internal_pre_snapshot g1 s r1 =
          VirtualOperations.internal_pre_snapshot g2 s r2)
  ∧ (∀ (g1 g2 : GeneratedDefinitions LSD VSD RD SCD SD) (s : VirtualOperations VSD RD SCD SD)
        (r1 r2 : VirtualOpRequest), s.status_impl = none →
        VirtualOperations.internal_status g1 s r1 = VirtualOperations.internal_status g2 s r2) := by
  refine ⟨?_, ?_, ?_, ?_, ?_, ?_, ?_, ?_, ?_, ?_⟩ <;>
    intros <;>
    simp [LinkedOperations.internal_staged_pre_snapshot, LinkedOperations.internal_start_staging,
      LinkedOperations.internal_stop_staging, LinkedOperations.internal_worker,
      LinkedOperations.internal_status, VirtualOperations.internal_unconfigure,
      VirtualOperations.internal_start, VirtualOperations.internal_stop,
      VirtualOperations.internal_pre_snapshot, VirtualOperations.internal_status, *]

/-- Witness for C10: each optional wrapper on an unset slot yields the same
result for two different concrete requests, one evaluated under deserializers
that reject every payload. -/
theorem C10_witness :
    LinkedOperations.internal_staged_pre_snapshot genId linkedNone stagedReq0 =
      LinkedOperations.internal_staged_pre_snapshot genBadAll linkedNone stagedReq1
  ∧ LinkedOperations.internal_start_staging genId linkedNone stagedReq0 =
      LinkedOperations.internal_start_staging genBadAll linkedNone stagedReq1
  ∧ LinkedOperations.internal_stop_staging genId linkedNone stagedReq0 =
      LinkedOperations.internal_stop_staging genBadAll linkedNone stagedReq1
  ∧ LinkedOperations.internal_worker genId linkedNone stagedReq0 =
      LinkedOperations.internal_worker genBadAll linkedNone stagedReq1
  ∧ LinkedOperations.internal_status genId linkedNone stagedReq0 =
      LinkedOperations.internal_status genBadAll linkedNone stagedReq1
  ∧ VirtualOperations.internal_unconfigure genId virtNone virtReq0 =
      VirtualOperations.internal_unconfigure genBadAll virtNone virtReq1
  ∧ VirtualOperations.internal_start genId virtNone virtReq0 =
      VirtualOperations.internal_start genBadAll virtNone virtReq1
  ∧ VirtualOperations.internal_stop genId virtNone virtReq0 =
      VirtualOperations.internal_stop genBadAll virtNone virtReq1
  ∧ VirtualOperations.internal_pre_snapshot genId virtNone virtReq0 =
      VirtualOperations.internal_pre_snapshot genBadAll virtNone virtReq1
  ∧ VirtualOperations.internal_status genId virtNone virtReq0 =
      VirtualOperations.internal_status genBadAll virtNone virtReq1 := by
  obtain ⟨h1, h2, h3, h4, h5, h6, h7, h8, h9, h10⟩ :=
    @C10_default_independent String String String String String
  exact ⟨h1 genId genBadAll linkedNone stagedReq0 stagedReq1 rfl,
    h2 genId genBadAll linkedNone stagedReq0 stagedReq1 rfl,
    h3 genId genBadAll linkedNone stagedReq0 stagedReq1 rfl,
    h4 genId genBadAll linkedNone stagedReq0 stagedReq1 rfl,
    h5 genId genBadAll linkedNone stagedReq0 stagedReq1 rfl,
    h6 genId genBadAll virtNone virtReq0 virtReq1 rfl,
    h7 genId genBadAll virtNone virtReq0 virtReq1 rfl,
    h8 genId genBadAll virtNone virtReq0 virtReq1 rfl,
    h9 genId genBadAll virtNone virtReq0 virtReq1 rfl,
    h10 genId genBadAll virtNone virtReq0 virtReq1 rfl⟩

/-- C5 (amended): for a staged mount-specification dispatch with a bound
callback whose arguments deserialize, a callback result with zero mounts or
more than one mount fails with a MountCardinalityError; a result with exactly
one mount whose shared path is empty succeeds, the response staged-mount
fields exactly match the returned mount, and the ownership spec is marshaled
into the response exactly when the result contains one. The empty-shared-path
proviso is forced by the wrapper's assertion that shared paths are
unsupported for linked sources. -/
theorem C5_staged_mount_cardinality {LSD VSD RD SCD SD : Type} :
    (∀ (gen : GeneratedDefinitions LSD VSD RD SCD SD) (s : LinkedOperations LSD RD SCD SD)
        (req : StagedMountSpecRequest) impl (lsd : LSD) (rd : RD) (spec : MountSpecification),
        s.mount_specification_impl = some impl →
        gen.fromLinkedSource req.staged_source.linked_source.parameters.json = Except.ok lsd →
        gen.fromRepository req.repository.parameters.json = Except.ok rd →
        impl (req.staged_source.toStagedSource lsd) rd = Except.ok spec →
        spec.mounts.length ≠ 1 →
        LinkedOperations.internal_mount_specification gen s req = Except.error
          (PluginError.mountCardinality
            ("Exactly one mount must be provided for staging sources. Found " ++
              toString spec.mounts.length)))
  ∧ (∀ (gen : GeneratedDefinitions LSD VSD RD SCD SD) (s : LinkedOperations LSD RD SCD SD)
        (req : StagedMountSpecRequest) impl (lsd : LSD) (rd : RD) (spec : MountSpecification)
        (single_mount : Mount),
        s.mount_specification_impl = some impl →
        gen.fromLinkedSource req.staged_source.linked_source.parameters.json = Except.ok lsd →
        gen.fromRepository req.repository.parameters.json = Except.ok rd →
        impl (req.staged_source.toStagedSource lsd) rd = Except.ok spec →
        spec.mounts = [single_mount] →
        single_mount.shared_path = "" →
        LinkedOperations.internal_mount_specification gen s req = Except.ok
          { staged_mount := { mount_path := single_mount.mount_path
                              remote_environment := single_mount.remote_environment }
            ownership_spec := spec.ownership_specification.map to_protobuf_ownership_spec }) := by
  constructor
  · intro gen s req impl lsd rd spec h hl hr hcb hlen
    simp only [LinkedOperations.internal_mount_specification, deser, h, hl, hr, hcb, ok_bind,
      ok_mapError]
    rcases hm : spec.mounts with _ | ⟨m, _ | ⟨m2, rest⟩⟩
    · simp [hm]
    · exact absurd (by simp [hm]) hlen
    · simp [hm]
  · intro gen s req impl lsd rd spec single_mount h hl hr hcb hm hsh
    simp [LinkedOperations.internal_mount_specification, deser, h, hl, hr, hcb, hm, hsh,
      LinkedOperations.to_protobuf_single_mount, ok_bind, ok_mapError]

/-- Counterexample to C5 as stated: a bound staged mount-specification
callback returning exactly one mount that carries a shared path makes the
dispatch fail with the shared-path assertion instead of succeeding. -/
theorem C5_counterexample :
    LinkedOperations.internal_mount_specification genId
        (linkedMS { mounts := [mountShared0], ownership_specification := none }) smountReq0 =
      Except.error (PluginError.assertionError
        ("Shared path is not supported for linked sources")) := by
  rfl

/-- Witness for C5: concrete staged mount-specification dispatches returning
zero mounts, two mounts, and exactly one shared-path-free mount with an
ownership spec. -/
theorem C5_witness :
    LinkedOperations.internal_mount_specification genId
        (linkedMS { mounts := [], ownership_specification := none }) smountReq0 =
      Except.error (PluginError.mountCardinality
        ("Exactly one mount must be provided for staging sources. Found 0"))
  ∧ LinkedOperations.internal_mount_specification genId
        (linkedMS { mounts := [mount0, mount0], ownership_specification := none }) smountReq0 =
      Except.error (PluginError.mountCardinality
        ("Exactly one mount must be provided for staging sources. Found 2"))
  ∧ LinkedOperations.internal_mount_specification genId
        (linkedMS { mounts := [mount0]
                    ownership_specification := some { uid := 1, gid := 2 } }) smountReq0 =
      Except.ok { staged_mount := { mount_path := "/mnt", remote_environment := env0 }
                  ownership_spec := some { uid := 1, gid := 2 } } := by
  obtain ⟨hA, hB⟩ := @C5_staged_mount_cardinality String String String String String
  refine ⟨?_, ?_, ?_⟩
  · exact hA genId (linkedMS { mounts := [], ownership_specification := none }) smountReq0 _
      "lsd-params" "repo-params" _ rfl rfl rfl rfl (by decide)
  · exact hA genId (linkedMS { mounts := [mount0, mount0], ownership_specification := none })
      smountReq0 _ "lsd-params" "repo-params" _ rfl rfl rfl rfl (by decide)
  · exact hB genId
      (linkedMS { mounts := [mount0], ownership_specification := some { uid := 1, gid := 2 } })
      smountReq0 _ "lsd-params" "repo-params" _ mount0 rfl rfl rfl rfl rfl rfl

/-- C9: a staged mount-specification dispatch whose bound callback returns
exactly one mount with a non-empty shared path fails on the wrapper's
assertion that shared paths are unsupported for linked sources, producing no
response. A successful staged response can never carry a shared path: its
staged-mount message type SingleEntireMount has no shared-path field, even
though the Mount data type has one. -/
theorem C9_staged_shared_path_assert {LSD VSD RD SCD SD : Type} :
    ∀ (gen : GeneratedDefinitions LSD VSD RD SCD SD) (s : LinkedOperations LSD RD SCD SD)
      (req : StagedMountSpecRequest) impl (lsd : LSD) (rd : RD) (spec : MountSpecification)
      (single_mount : Mount),
      s.mount_specification_impl = some impl →
      gen.fromLinkedSource req.staged_source.linked_source.parameters.json = Except.ok lsd →
      gen.fromRepository req.repository.parameters.json = Except.ok rd →
      impl (req.staged_source.toStagedSource lsd) rd = Except.ok spec →
      spec.mounts = [single_mount] →
      single_mount.shared_path ≠ "" →
      LinkedOperations.internal_mount_specification gen s req = Except.error
        (PluginError.assertionError ("Shared path is not supported for linked sources")) := by
  intro gen s req impl lsd rd spec single_mount h hl hr hcb hm hsh
  simp [LinkedOperations.internal_mount_specification, deser, h, hl, hr, hcb, hm, hsh,
    LinkedOperations.to_protobuf_single_mount, ok_bind, error_bind, ok_mapError]

/-- Witness for C9: a concrete staged mount-specification dispatch returning
one mount with shared path /shared and an ownership spec fails with the
shared-path assertion. -/
theorem C9_witness :
    LinkedOperations.internal_mount_specification genId
        (linkedMS { mounts := [mountShared0]
                    ownership_specification := some { uid := 3, gid := 4 } }) smountReq0 =
      Except.error (PluginError.assertionError
        ("Shared path is not supported for linked sources")) := by
  exact C9_staged_shared_path_assert genId
    (linkedMS { mounts := [mountShared0], ownership_specification := some { uid := 3, gid := 4 } })
    smountReq0 _ "lsd-params" "repo-params" _ mountShared0 rfl rfl rfl rfl rfl (by decide)

/-- The virtual mount conversion preserves every field: the reconstructed
environment and host equal the originals, and the conditional shared-path
assignment always yields the mount's shared path (the proto3 default is the
empty string). -/
theorem to_protobuf_single_mount_fields (m : Mount) :
    VirtualOperations.to_protobuf_single_mount m =
      { remote_environment := m.remote_environment
        mount_path := m.mount_path
        shared_path := m.shared_path } := by
  by_cases h : m.shared_path = "" <;>
    simp [VirtualOperations.to_protobuf_single_mount, h]

/-- C1 (amended): the virtual mount-specification wrapper performs no
cardinality check. With a bound callback whose arguments deserialize and
whose result carries zero mounts, the dispatch does not fail with a
MountCardinalityError; it succeeds with a response containing zero mount
entries (and the ownership spec marshaled when present). -/
theorem C1_virtual_mount_no_cardinality {LSD VSD RD SCD SD : Type} :
    ∀ (gen : GeneratedDefinitions LSD VSD RD SCD SD) (s : VirtualOperations VSD RD SCD SD)
      (req : VirtualMountSpecRequest) impl (vsd : VSD) (rd : RD) (spec : MountSpecification),
      s.mount_specification_impl = some impl →
      gen.fromVirtualSource req.virtual_source.parameters.json = Except.ok vsd →
      gen.fromRepository req.repository.parameters.json = Except.ok rd →
      impl rd (req.virtual_source.toVirtualSource vsd) = Except.ok spec →
      spec.mounts = [] →
      VirtualOperations.internal_mount_specification gen s req = Except.ok
        { mounts := []
          ownership_spec := spec.ownership_specification.map to_protobuf_ownership_spec } := by
  intro gen s req impl vsd rd spec h hv hr hcb hm
  simp [VirtualOperations.internal_mount_specification, deser, h, hv, hr, hcb, hm, ok_bind,
    ok_mapError]

/-- Counterexample to C1 as stated: a virtual mount-specification dispatch
whose bound callback returns zero mounts produces a success response with an
empty mounts list instead of failing with a MountCardinalityError. -/
theorem C1_counterexample :
    VirtualOperations.internal_mount_specification genId
        (virtMS { mounts := [], ownership_specification := none }) vmountReq0 =
      Except.ok { mounts := [], ownership_spec := none } := by
  rfl

/-- Witness for C1: the amended statement evaluated on a concrete zero-mount
callback result that carries an ownership spec. -/
theorem C1_witness :
    VirtualOperations.internal_mount_specification genId
        (virtMS { mounts := [], ownership_specification := some { uid := 5, gid := 6 } })
        vmountReq0 =
      Except.ok { mounts := [], ownership_spec := some { uid := 5, gid := 6 } } := by
  exact C1_virtual_mount_no_cardinality genId
    (virtMS { mounts := [], ownership_specification := some { uid := 5, gid := 6 } })
    vmountReq0 _ "vsd-params" "repo-params" _ rfl rfl rfl rfl rfl

/-- C6: a virtual mount-specification dispatch whose bound callback returns a
list of at least one mount succeeds; the response carries exactly as many
mount entries as the callback returned, in the same order, and entry i holds
the mount path, the shared path, and the reconstructed remote environment and
host of returned mount i. -/
theorem C6_virtual_mounts_in_order {LSD VSD RD SCD SD : Type} :
    ∀ (gen : GeneratedDefinitions LSD VSD RD SCD SD) (s : VirtualOperations VSD RD SCD SD)
      (req : VirtualMountSpecRequest) impl (vsd : VSD) (rd : RD) (spec : MountSpecification),
      s.mount_specification_impl = some impl →
      gen.fromVirtualSource req.virtual_source.parameters.json = Except.ok vsd →
      gen.fromRepository req.repository.parameters.json = Except.ok rd →
      impl rd (req.virtual_source.toVirtualSource vsd) = Except.ok spec →
      1 ≤ spec.mounts.length →
      (VirtualOperations.internal_mount_specification gen s req = Except.ok
          { mounts := spec.mounts.map VirtualOperations.to_protobuf_single_mount
            ownership_spec := spec.ownership_specification.map to_protobuf_ownership_spec })
        ∧ (spec.mounts.map VirtualOperations.to_protobuf_single_mount).length =
            spec.mounts.length
        ∧ ∀ (i : Nat),
            (spec.mounts.map VirtualOperations.to_protobuf_single_mount)[i]? =
              (spec.mounts[i]?).map (fun m =>
                { remote_environment := m.remote_environment
                  mount_path := m.mount_path
                  shared_path := m.shared_path }) := by
  intro gen s req impl vsd rd spec h hv hr hcb hn
  refine ⟨?_, ?_, ?_⟩
  · simp [VirtualOperations.internal_mount_specification, deser, h, hv, hr, hcb, ok_bind,
      ok_mapError]
  · simp
  · intro i
    rcases hmi : spec.mounts[i]? with _ | m <;>
      simp [List.getElem?_map, hmi, to_protobuf_single_mount_fields]

/-- Witness for C6: a concrete virtual mount-specification dispatch returning
three mounts succeeds with three response entries in the same order, each
carrying its mount path, shared path and environment. -/
theorem C6_witness :
    VirtualOperations.internal_mount_specification genId (virtMS specThree) vmountReq0 =
      Except.ok
        { mounts :=
            [{ remote_environment := env0, mount_path := "/m1", shared_path := "" },
             { remote_environment := env0, mount_path := "/m2", shared_path := "/s2" },
             { remote_environment := env0, mount_path := "/m3", shared_path := "" }]
          ownership_spec := some { uid := 7, gid := 8 } } := by
  exact (C6_virtual_mounts_in_order genId (virtMS specThree) vmountReq0 _
    "vsd-params" "repo-params" _ rfl rfl rfl rfl (by decide)).1

/-- C8: the configure dispatch invokes the bound callback with exactly the
virtual source built from the request's guid, connection and deserialized
parameters, the deserialized repository, and the deserialized snapshot; the
response's source-config payload string is the serialization of the
callback's returned definition, and whenever the plugin's serializer pair
round-trips that definition, deserializing the response payload yields the
returned value again. -/
theorem C8_configure_end_to_end {LSD VSD RD SCD SD : Type} :
    ∀ (gen : GeneratedDefinitions LSD VSD RD SCD SD) (s : VirtualOperations VSD RD SCD SD)
      (req : ConfigureRequest) impl (vsd : VSD) (rd : RD) (sd : SD) (config : SCD),
      s.configure_impl = some impl →
      gen.fromVirtualSource req.virtual_source.parameters.json = Except.ok vsd →
      gen.fromRepository req.repository.parameters.json = Except.ok rd →
      gen.fromSnapshot req.snapshot.parameters.json = Except.ok sd →
      impl { guid := req.virtual_source.guid
             connection := req.virtual_source.connection
             parameters := vsd } rd sd = Except.ok config →
      (VirtualOperations.internal_configure gen s req = Except.ok
          { source_config := { parameters := { json := gen.toSourceConfig config } } })
        ∧ ∀ (resp : SourceConfigResponse),
            VirtualOperations.internal_configure gen s req = Except.ok resp →
            gen.fromSourceConfig (gen.toSourceConfig config) = Except.ok config →
            gen.fromSourceConfig resp.source_config.parameters.json = Except.ok config := by
  intro gen s req impl vsd rd sd config h hv hr hsd hcb
  have hmain : VirtualOperations.internal_configure gen s req = Except.ok
      { source_config := { parameters := { json := gen.toSourceConfig config } } } := by
    simp [VirtualOperations.internal_configure, VirtualSourceMsg.toVirtualSource, deser, h, hv,
      hr, hsd, hcb, ok_bind, ok_mapError]
  refine ⟨hmain, ?_⟩
  intro resp hresp hrt
  rw [hmain] at hresp
  cases hresp
  exact hrt

/-- Witness for C8: a concrete configure dispatch whose callback appends a
suffix to the virtual-source parameters it received; the response payload is
the serialized result and deserializes back to it under the identity
serializers. -/
theorem C8_witness :
    VirtualOperations.internal_configure genId virtConf confReq0 =
      Except.ok { source_config := { parameters := { json := "vsd-params-configured" } } }
  ∧ genId.fromSourceConfig "vsd-params-configured" = Except.ok "vsd-params-configured" := by
  have h := C8_configure_end_to_end genId virtConf confReq0 _ "vsd-params" "repo-params"
    "snap-params" "vsd-params-configured" rfl rfl rfl rfl rfl
  exact ⟨h.1, h.2 { source_config := { parameters := { json := "vsd-params-configured" } } }
    h.1 rfl⟩

/-- C7: for every operation wrapper, an error raised by the bound callback
propagates out of the dispatch with its content unmodified (injected into the
callback-error case of the dispatch error type, which carries the raised
error verbatim), and no response is produced. Every wrapper returns only a
response value and never a modified registry, so the registry's slot state is
unchanged by a failed dispatch by construction. -/
theorem C7_callback_error_propagates {LSD VSD RD SCD SD : Type} :
    (∀ (gen : GeneratedDefinitions LSD VSD RD SCD SD) (s : DiscoveryOperations RD SCD)
        (req : RepositoryDiscoveryRequest) impl (e : String),
        s.repository_impl = some impl →
        impl req.source_connection = Except.error e →
        DiscoveryOperations.internal_repository gen s req =
          Except.error (PluginError.callbackError e))
  ∧ (∀ (gen : GeneratedDefinitions LSD VSD RD SCD SD) (s : DiscoveryOperations RD SCD)
        (req : SourceConfigDiscoveryRequest) impl (rd : RD) (e : String),
        s.source_config_impl = some impl →
        gen.fromRepository req.repository.parameters.json = Except.ok rd →
        impl req.source_connection rd = Except.error e →
        DiscoveryOperations.internal_source_config gen s req =
          Except.error (PluginError.callbackError e))
  ∧ (∀ (gen : GeneratedDefinitions LSD VSD RD SCD SD) (s : LinkedOperations LSD RD SCD SD)
        (req : DirectOpRequest) impl (lsd : LSD) (rd : RD) (scd : SCD) (e : String),
        s.pre_snapshot_impl = some impl →
        gen.fromLinkedSource req.direct_source.linked_source.parameters.json = Except.ok lsd →
        gen.fromRepository req.repository.parameters.json = Except.ok rd →
        gen.fromSourceConfig req.source_config.parameters.json = Except.ok scd →
        impl (LinkedSourceObj.direct { guid := req.direct_source.linked_source.guid
                                       connection := req.direct_source.connection
                                       parameters := lsd }) rd scd = Except.error e →
        LinkedOperations.internal_direct_pre_snapshot gen s req =
          Except.error (PluginError.callbackError e))
  ∧ (∀ (gen : GeneratedDefinitions LSD VSD RD SCD SD) (s : LinkedOperations LSD RD SCD SD)
        (req : DirectOpRequest) impl (lsd : LSD) (rd : RD) (scd : SCD) (e : String),
        s.post_snapshot_impl = some impl →
        gen.fromLinkedSource req.direct_source.linked_source.parameters.json = Except.ok lsd →
        gen.fromRepository req.repository.parameters.json = Except.ok rd →
        gen.fromSourceConfig req.source_config.parameters.json = Except.ok scd →
        impl (LinkedSourceObj.direct { guid := req.direct_source.linked_source.guid
                                       connection := req.direct_source.connection
                                       parameters := lsd }) rd scd = Except.error e →
        LinkedOperations.internal_direct_post_snapshot gen s req =
          Except.error (PluginError.callbackError e))
  ∧ (∀ (gen : GeneratedDefinitions LSD VSD RD SCD SD) (s : LinkedOperations LSD RD SCD SD)
        (req : StagedOpRequest) impl (lsd : LSD) (rd : RD) (scd : SCD) (e : String),
        s.pre_snapshot_impl = some impl →
        gen.fromLinkedSource req.staged_source.linked_source.parameters.json = Except.ok lsd →
        gen.fromRepository req.repository.parameters.json = Except.ok rd →
        gen.fromSourceConfig req.source_config.parameters.json = Except.ok scd →
        impl (LinkedSourceObj.staged (req.staged_source.toStagedSource lsd)) rd scd =
          Except.error e →
        LinkedOperations.internal_staged_pre_snapshot gen s req =
          Except.error (PluginError.callbackError e))
  ∧ (∀ (gen : GeneratedDefinitions LSD VSD RD SCD SD) (s : LinkedOperations LSD RD SCD SD)
        (req : StagedOpRequest) impl (lsd : LSD) (rd : RD) (scd : SCD) (e : String),
        s.post_snapshot_impl = some impl →
        gen.fromLinkedSource req.staged_source.linked_source.parameters.json = Except.ok lsd →
        gen.fromRepository req.repository.parameters.json = Except.ok rd →
        gen.fromSourceConfig req.source_config.parameters.json = Except.ok scd →
        impl (LinkedSourceObj.staged (req.staged_source.toStagedSource lsd)) rd scd =
          Except.error e →
        LinkedOperations.internal_staged_post_snapshot gen s req =
          Except.error (PluginError.callbackError e))
  ∧ (∀ (gen : GeneratedDefinitions LSD VSD RD SCD SD) (s : LinkedOperations LSD RD SCD SD)
        (req : StagedOpRequest) impl (lsd : LSD) (rd : RD) (scd : SCD) (e : String),
        s.start_staging_impl = some impl →
        gen.fromLinkedSource req.staged_source.linked_source.parameters.json = Except.ok lsd →
        gen.fromRepository req.repository.parameters.json = Except.ok rd →
        gen.fromSourceConfig req.source_config.parameters.json = Except.ok scd →
        impl (req.staged_source.toStagedSource lsd) rd scd = Except.error e →
        LinkedOperations.internal_start_staging gen s req =
          Except.error (PluginError.callbackError e))
  ∧ (∀ (gen : GeneratedDefinitions LSD VSD RD SCD SD) (s : LinkedOperations LSD RD SCD SD)
        (req : StagedOpRequest) impl (lsd : LSD) (rd : RD) (scd : SCD) (e : String),
        s.stop_staging_impl = some impl →
        gen.fromLinkedSource req.staged_source.linked_source.parameters.json = Except.ok lsd →
        gen.fromRepository req.repository.parameters.json = Except.ok rd →
        gen.fromSourceConfig req.source_config.parameters.json = Except.ok scd →
        impl (req.staged_source.toStagedSource lsd) rd scd = Except.error e →
        LinkedOperations.internal_stop_staging gen s req =
          Except.error (PluginError.callbackError e))
  ∧ (∀ (gen : GeneratedDefinitions LSD VSD RD SCD SD) (s : LinkedOperations LSD RD SCD SD)
        (req : StagedOpRequest) impl (lsd : LSD) (rd : RD) (scd : SCD) (e : String),
        s.status_impl = some impl →
        gen.fromLinkedSource req.staged_source.linked_source.parameters.json = Except.ok lsd →
        gen.fromRepository req.repository.parameters.json = Except.ok rd →
        gen.fromSourceConfig req.source_config.parameters.json = Except.ok scd →
        impl (req.staged_source.toStagedSource lsd) rd scd = Except.error e →
        LinkedOperations.internal_status gen s req =
          Except.error (PluginError.callbackError e))
  ∧ (∀ (gen : GeneratedDefinitions LSD VSD RD SCD SD) (s : LinkedOperations LSD RD SCD SD)
        (req : StagedOpRequest) impl (lsd : LSD) (rd : RD) (scd : SCD) (e : String),
        s.worker_impl = some impl →
        gen.fromLinkedSource req.staged_source.linked_source.parameters.json = Except.ok lsd →
        gen.fromRepository req.repository.parameters.json = Except.ok rd →
        gen.fromSourceConfig req.source_config.parameters.json = Except.ok scd →
        impl (req.staged_source.toStagedSource lsd) rd scd = Except.error e →
        LinkedOperations.internal_worker gen s req =
          Except.error (PluginError.callbackError e))
  ∧ (∀ (gen : GeneratedDefinitions LSD VSD RD SCD SD) (s : LinkedOperations LSD RD SCD SD)
        (req : StagedMountSpecRequest) impl (lsd : LSD) (rd : RD) (e : String),
        s.mount_specification_impl = some impl →
        gen.fromLinkedSource req.staged_source.linked_source.parameters.json = Except.ok lsd →
        gen.fromRepository req.repository.parameters.json = Except.ok rd →
        impl (req.staged_source.toStagedSource lsd) rd = Except.error e →
        LinkedOperations.internal_mount_specification gen s req =
          Except.error (PluginError.callbackError e))
  ∧ (∀ (gen : GeneratedDefinitions LSD VSD RD SCD SD) (s : VirtualOperations VSD RD SCD SD)
        (req : ConfigureRequest) impl (vsd : VSD) (rd : RD) (sd : SD) (e : String),
        s.configure_impl = some impl →
        gen.fromVirtualSource req.virtual_source.parameters.json = Except.ok vsd →
        gen.fromRepository req.repository.parameters.json = Except.ok rd →
        gen.fromSnapshot req.snapshot.parameters.json = Except.ok sd →
        impl (req.virtual_source.toVirtualSource vsd) rd sd = Except.error e →
        VirtualOperations.internal_configure gen s req =
          Except.error (PluginError.callbackError e))
  ∧ (∀ (gen : GeneratedDefinitions LSD VSD RD SCD SD) (s : VirtualOperations VSD RD SCD SD)
        (req : VirtualOpRequest) impl (vsd : VSD) (rd : RD) (scd : SCD) (e : String),
        s.unconfigure_impl = some impl →
        gen.fromVirtualSource req.virtual_source.parameters.json = Except.ok vsd →
        gen.fromRepository req.repository.parameters.json = Except.ok rd →
        gen.fromSourceConfig req.source_config.parameters.json = Except.ok scd →
        impl rd scd (req.virtual_source.toVirtualSource vsd) = Except.error e →
        VirtualOperations.internal_unconfigure gen s req =
          Except.error (PluginError.callbackError e))
  ∧ (∀ (gen : GeneratedDefinitions LSD VSD RD SCD SD) (s : VirtualOperations VSD RD SCD SD)
        (req : ReconfigureRequest) impl (vsd : VSD) (sd : SD) (scd : SCD) (e : String),
        s.reconfigure_impl = some impl →
        gen.fromVirtualSource req.virtual_source.parameters.json = Except.ok vsd →
        gen.fromSnapshot req.snapshot.parameters.json = Except.ok sd →
        gen.fromSourceConfig req.source_config.parameters.json = Except.ok scd →
        impl sd scd (req.virtual_source.toVirtualSource vsd) = Except.error e →
        VirtualOperations.internal_reconfigure gen s req =
          Except.error (PluginError.callbackError e))
  ∧ (∀ (gen : GeneratedDefinitions LSD VSD RD SCD SD) (s : VirtualOperations VSD RD SCD SD)
        (req : VirtualOpRequest) impl (vsd : VSD) (rd : RD) (scd : SCD) (e : String),
        s.start_impl = some impl →
        gen.fromVirtualSource req.virtual_source.parameters.json = Except.ok vsd →
        gen.fromRepository req.repository.parameters.json = Except.ok rd →
        gen.fromSourceConfig req.source_config.parameters.json = Except.ok scd →
        impl rd scd (req.virtual_source.toVirtualSource vsd) = Except.error e →
        VirtualOperations.internal_start gen s req =
          Except.error (PluginError.callbackError e))
  ∧ (∀ (gen : GeneratedDefinitions LSD VSD RD SCD SD) (s : VirtualOperations VSD RD SCD SD)
        (req : VirtualOpRequest) impl (vsd : VSD) (rd : RD) (scd : SCD) (e : String),
        s.stop_impl = some impl →
        gen.fromVirtualSource req.virtual_source.parameters.json = Except.ok vsd →
        gen.fromRepository req.repository.parameters.json = Except.ok rd →
        gen.fromSourceConfig req.source_config.parameters.json = Except.ok scd →
        impl rd scd (req.virtual_source.toVirtualSource vsd) = Except.error e →
        VirtualOperations.internal_stop gen s req =
          Except.error (PluginError.callbackError e))
  ∧ (∀ (gen : GeneratedDefinitions LSD VSD RD SCD SD) (s : VirtualOperations VSD RD SCD SD)
        (req : VirtualOpRequest) impl (vsd : VSD) (rd : RD) (scd : SCD) (e : String),
        s.pre_snapshot_impl = some impl →
        gen.fromVirtualSource req.virtual_source.parameters.json = Except.ok vsd →
        gen.fromRepository req.repository.parameters.json = Except.ok rd →
        gen.fromSourceConfig req.source_config.parameters.json = Except.ok scd →
        impl rd scd (req.virtual_source.toVirtualSource vsd) = Except.error e →
        VirtualOperations.internal_pre_snapshot gen s req =
          Except.error (PluginError.callbackError e))
  ∧ (∀ (gen : GeneratedDefinitions LSD VSD RD SCD SD) (s : VirtualOperations VSD RD SCD SD)
        (req : VirtualOpRequest) impl (vsd : VSD) (rd : RD) (scd : SCD) (e : String),
        s.post_snapshot_impl = some impl →
        gen.fromVirtualSource req.virtual_source.parameters.json = Except.ok vsd →
        gen.fromRepository req.repository.parameters.json = Except.ok rd →
        gen.fromSourceConfig req.source_config.parameters.json = Except.ok scd →
        impl rd scd (req.virtual_source.toVirtualSource vsd) = Except.error e →
        VirtualOperations.internal_post_snapshot gen s req =
          Except.error (PluginError.callbackError e))
  ∧ (∀ (gen : GeneratedDefinitions LSD VSD RD SCD SD) (s : VirtualOperations VSD RD SCD SD)
        (req : VirtualOpRequest) impl (vsd : VSD) (rd : RD) (scd : SCD) (e : String),
        s.status_impl = some impl →
        gen.fromVirtualSource req.virtual_source.parameters.json = Except.ok vsd →
        gen.fromRepository req.repository.parameters.json = Except.ok rd →
        gen.fromSourceConfig req.source_config.parameters.json = Except.ok scd →
        impl rd scd (req.virtual_source.toVirtualSource vsd) = Except.error e →
        VirtualOperations.internal_status gen s req =
          Except.error (PluginError.callbackError e))
  ∧ (∀ (gen : GeneratedDefinitions LSD VSD RD SCD SD) (s : VirtualOperations VSD RD SCD SD)
        (req : VirtualOpRequest) impl (vsd : VSD) (rd : RD) (scd : SCD) (e : String),
        s.initialize_impl = some impl →
        gen.fromVirtualSource req.virtual_source.parameters.json = Except.ok vsd →
        gen.fromRepository req.repository.parameters.json = Except.ok rd →
        gen.fromSourceConfig req.source_config.parameters.json = Except.ok scd →
        impl rd scd (req.virtual_source.toVirtualSource vsd) = Except.error e →
        VirtualOperations.internal_initialize_op gen s req =
          Except.error (PluginError.callbackError e))
  ∧ (∀ (gen : GeneratedDefinitions LSD VSD RD SCD SD) (s : VirtualOperations VSD RD SCD SD)
        (req : VirtualMountSpecRequest) impl (vsd : VSD) (rd : RD) (e : String),
        s.mount_specification_impl = some impl →
        gen.fromVirtualSource req.virtual_source.parameters.json = Except.ok vsd →
        gen.fromRepository req.repository.parameters.json = Except.ok rd →
        impl rd (req.virtual_source.toVirtualSource vsd) = Except.error e →
        VirtualOperations.internal_mount_specification gen s req =
          Except.error (PluginError.callbackError e)) := by
  refine ⟨?_, ?_, ?_, ?_, ?_, ?_, ?_, ?_, ?_, ?_, ?_, ?_, ?_, ?_, ?_, ?_, ?_, ?_, ?_, ?_, ?_⟩ <;>
    intros <;>
    simp [DiscoveryOperations.internal_repository, DiscoveryOperations.internal_source_config,
      LinkedOperations.internal_direct_pre_snapshot, LinkedOperations.internal_direct_post_snapshot,
      LinkedOperations.internal_staged_pre_snapshot, LinkedOperations.internal_staged_post_snapshot,
      LinkedOperations.internal_start_staging, LinkedOperations.internal_stop_staging,
      LinkedOperations.internal_status, LinkedOperations.internal_worker,
      LinkedOperations.internal_mount_specification, VirtualOperations.internal_configure,
      VirtualOperations.internal_unconfigure, VirtualOperations.internal_reconfigure,
      VirtualOperations.internal_start, VirtualOperations.internal_stop,
      VirtualOperations.internal_pre_snapshot, VirtualOperations.internal_post_snapshot,
      VirtualOperations.internal_status, VirtualOperations.internal_initialize_op,
      VirtualOperations.internal_mount_specification, deser, ok_bind, error_bind, ok_mapError,
      error_mapError, *]

/-- Witness for C7: registries whose every callback raises a concrete error
make each of the 21 dispatch wrappers fail with that same error. -/
theorem C7_witness :
    DiscoveryOperations.internal_repository genId discFail repoReq0 =
      Except.error (PluginError.callbackError "boom")
  ∧ DiscoveryOperations.internal_source_config genId discFail scReq0 =
      Except.error (PluginError.callbackError "boom")
  ∧ LinkedOperations.internal_direct_pre_snapshot genId linkedFail directReq0 =
      Except.error (PluginError.callbackError "boom")
  ∧ LinkedOperations.internal_direct_post_snapshot genId linkedFail directReq0 =
      Except.error (PluginError.callbackError "boom")
  ∧ LinkedOperations.internal_staged_pre_snapshot genId linkedFail stagedReq0 =
      Except.error (PluginError.callbackError "boom")
  ∧ LinkedOperations.internal_staged_post_snapshot genId linkedFail stagedReq0 =
      Except.error (PluginError.callbackError "boom")
  ∧ LinkedOperations.internal_start_staging genId linkedFail stagedReq0 =
      Except.error (PluginError.callbackError "boom")
  ∧ LinkedOperations.internal_stop_staging genId linkedFail stagedReq0 =
      Except.error (PluginError.callbackError "boom")
  ∧ LinkedOperations.internal_status genId linkedFail stagedReq0 =
      Except.error (PluginError.callbackError "boom")
  ∧ LinkedOperations.internal_worker genId linkedFail stagedReq0 =
      Except.error (PluginError.callbackError "boom")
  ∧ LinkedOperations.internal_mount_specification genId linkedFail smountReq0 =
      Except.error (PluginError.callbackError "boom")
  ∧ VirtualOperations.internal_configure genId virtFail confReq0 =
      Except.error (PluginError.callbackError "boom")
  ∧ VirtualOperations.internal_unconfigure genId virtFail virtReq0 =
      Except.error (PluginError.callbackError "boom")
  ∧ VirtualOperations.internal_reconfigure genId virtFail reconfReq0 =
      Except.error (PluginError.callbackError "boom")
  ∧ VirtualOperations.internal_start genId virtFail virtReq0 =
      Except.error (PluginError.callbackError "boom")
  ∧ VirtualOperations.internal_stop genId virtFail virtReq0 =
      Except.error (PluginError.callbackError "boom")
  ∧ VirtualOperations.internal_pre_snapshot genId virtFail virtReq0 =
      Except.error (PluginError.callbackError "boom")
  ∧ VirtualOperations.internal_post_snapshot genId virtFail virtReq0 =
      Except.error (PluginError.callbackError "boom")
  ∧ VirtualOperations.internal_status genId virtFail virtReq0 =
      Except.error (PluginError.callbackError "boom")
  ∧ VirtualOperations.internal_initialize_op genId virtFail virtReq0 =
      Except.error (PluginError.callbackError "boom")
  ∧ VirtualOperations.internal_mount_specification genId virtFail vmountReq0 =
      Except.error (PluginError.callbackError "boom") := by
  obtain ⟨k1, k2, k3, k4, k5, k6, k7, k8, k9, k10, k11, k12, k13, k14, k15, k16, k17, k18, k19,
    k20, k21⟩ := @C7_callback_error_propagates String String String String String
  exact ⟨k1 genId discFail repoReq0 _ "boom" rfl rfl,
    k2 genId discFail scReq0 _ "repo-params" "boom" rfl rfl rfl,
    k3 genId linkedFail directReq0 _ "lsd-params" "repo-params" "sc-params" "boom" rfl rfl rfl rfl rfl,
    k4 genId linkedFail directReq0 _ "lsd-params" "repo-params" "sc-params" "boom" rfl rfl rfl rfl rfl,
    k5 genId linkedFail stagedReq0 _ "lsd-params" "repo-params" "sc-params" "boom" rfl rfl rfl rfl rfl,
    k6 genId linkedFail stagedReq0 _ "lsd-params" "repo-params" "sc-params" "boom" rfl rfl rfl rfl rfl,
    k7 genId linkedFail stagedReq0 _ "lsd-params" "repo-params" "sc-params" "boom" rfl rfl rfl rfl rfl,
    k8 genId linkedFail stagedReq0 _ "lsd-params" "repo-params" "sc-params" "boom" rfl rfl rfl rfl rfl,
    k9 genId linkedFail stagedReq0 _ "lsd-params" "repo-params" "sc-params" "boom" rfl rfl rfl rfl rfl,
    k10 genId linkedFail stagedReq0 _ "lsd-params" "repo-params" "sc-params" "boom" rfl rfl rfl rfl rfl,
    k11 genId linkedFail smountReq0 _ "lsd-params" "repo-params" "boom" rfl rfl rfl rfl,
    k12 genId virtFail confReq0 _ "vsd-params" "repo-params" "snap-params" "boom" rfl rfl rfl rfl rfl,
    k13 genId virtFail virtReq0 _ "vsd-params" "repo-params" "sc-params" "boom" rfl rfl rfl rfl rfl,
    k14 genId virtFail reconfReq0 _ "vsd-params" "snap-params" "sc-params" "boom" rfl rfl rfl rfl rfl,
    k15 genId virtFail virtReq0 _ "vsd-params" "repo-params" "sc-params" "boom" rfl rfl rfl rfl rfl,
    k16 genId virtFail virtReq0 _ "vsd-params" "repo-params" "sc-params" "boom" rfl rfl rfl rfl rfl,
    k17 genId virtFail virtReq0 _ "vsd-params" "repo-params" "sc-params" "boom" rfl rfl rfl rfl rfl,
    k18 genId virtFail virtReq0 _ "vsd-params" "repo-params" "sc-params" "boom" rfl rfl rfl rfl rfl,
    k19 genId virtFail virtReq0 _ "vsd-params" "repo-params" "sc-params" "boom" rfl rfl rfl rfl rfl,
    k20 genId virtFail virtReq0 _ "vsd-params" "repo-params" "sc-params" "boom" rfl rfl rfl rfl rfl,
    k21 genId virtFail vmountReq0 _ "vsd-params" "repo-params" "boom" rfl rfl rfl rfl⟩
